import Mathlib

/-!
Verification development for the MRI transform pipeline in
`direct/data/mri_transforms.py`.

The pipeline operates on a mutable mapping ("sample") from string keys to
values (tensors, scalars, strings, shape lists).  We shallowly embed:

* torch tensors as `NDArray` (explicit shape, row-major flat rational data);
* numpy complex arrays (pre-`ToTensor`) as `CArray` (flat list of pairs);
* samples as ordered association lists with Python-dict update semantics;
* Python exceptions as an `Except PErr` result;
* the external collaborators from `direct.data.transforms` (Fourier
  operators, complex primitives, mask generators, croppers) as function
  parameters, mirroring how the Python code receives them as callables.

Machine floats are idealized as exact rationals.
-/

namespace DirectMri

/-- A torch tensor: shape plus row-major flattened data.  Complex tensors
carry the real/imaginary pair as a trailing axis of size 2 inside `shape`. -/
structure NDArray where
  shape : List ℕ
  data : List ℚ
deriving DecidableEq

/-- A numpy complex-valued array (the representation of raw k-space before
`ToTensor` materializes it): shape without the trailing complex axis, data a
flat list of (real, imaginary) pairs. -/
structure CArray where
  shape : List ℕ
  data : List (ℚ × ℚ)
deriving DecidableEq

/-- A value stored in a sample. -/
inductive Value where
  | arr (a : NDArray)
  | carr (a : CArray)
  | scal (q : ℚ)
  | str (s : String)
  | intList (l : List ℕ)
deriving DecidableEq

/-- Python exceptions that the transforms can raise. -/
inductive PErr where
  | keyError (key : String)
  | valueError (msg : String)
  | itemNotFound (item : String)
  | assertionError (msg : String)
  | typeError (msg : String)
deriving DecidableEq

/-- A sample: an ordered mapping from keys to values (Python dict). -/
abbrev Sample := List (String × Value)

instance instDecEqExcept {ε α : Type} [DecidableEq ε] [DecidableEq α] :
    DecidableEq (Except ε α) := fun x y =>
  match x, y with
  | .ok a, .ok b =>
    match decEq a b with
    | isTrue h => isTrue (by rw [h])
    | isFalse h => isFalse (by intro hc; cases hc; exact h rfl)
  | .error a, .error b =>
    match decEq a b with
    | isTrue h => isTrue (by rw [h])
    | isFalse h => isFalse (by intro hc; cases hc; exact h rfl)
  | .ok _, .error _ => isFalse (by intro hc; cases hc)
  | .error _, .ok _ => isFalse (by intro hc; cases hc)

namespace Sample

/-- Dictionary lookup (first matching key). -/
def get? : Sample → String → Option Value
  | [], _ => none
  | (k, v) :: rest, key => if k = key then some v else get? rest key

/-- Dictionary update: replace the value at an existing key in place
(preserving insertion order), else append the new pair at the end. -/
def set : Sample → String → Value → Sample
  | [], key, v => [(key, v)]
  | (k, w) :: rest, key, v =>
      if k = key then (k, v) :: rest else (k, w) :: set rest key v

/-- Dictionary deletion (`del`): remove the first pair with the given key. -/
def erase : Sample → String → Sample
  | [], _ => []
  | (k, w) :: rest, key => if k = key then rest else (k, w) :: erase rest key

end Sample

/-- Python truthiness of a sample value (`if value:`).  A single-element
tensor is truthy when its element is non-zero; torch raises on multi-element
tensors, which does not occur in the pipeline and is approximated by `any`. -/
def Value.truthy : Value → Bool
  | .scal q => q != 0
  | .arr a => a.data.any (fun x => x != 0)
  | .carr a => a.data.any (fun z => z != (0, 0))
  | .str s => s != ""
  | .intList l => !l.isEmpty

/-- Python `str()` of a sample value, as used on `sample["filename"]`;
filenames in the datasets are strings (or path-likes rendering to them). -/
def Value.pyStr : Value → String
  | .str s => s
  | _ => ""

/-- Python `int()` truncation toward zero on an exact rational. -/
def pyInt (q : ℚ) : ℤ := q.num / q.den

namespace NDArray

/-- `Tensor.sum(0)`: sum over the leading axis. -/
def sumAxis0 (a : NDArray) : NDArray :=
  let rest := a.shape.tail
  let chunk := rest.prod
  let n := a.shape.headD 0
  ⟨rest, (List.range chunk).map
    (fun j => ((List.range n).map (fun i => a.data.getD (i * chunk + j) 0)).sum)⟩

/-- `torch.mean` over all elements. -/
def mean (a : NDArray) : ℚ := a.data.sum / a.data.length

/-- Elementwise comparison with a scalar, producing a 0/1 tensor. -/
def ltScalar (a : NDArray) (q : ℚ) : NDArray :=
  ⟨a.shape, a.data.map (fun x => if x < q then (1 : ℚ) else 0)⟩

/-- `unsqueeze(0)`. -/
def unsqueeze0 (a : NDArray) : NDArray := ⟨1 :: a.shape, a.data⟩

/-- `unsqueeze(-1)`. -/
def unsqueezeLast (a : NDArray) : NDArray := ⟨a.shape ++ [1], a.data⟩

/-- `torch.cat([x, y], dim=0)`. -/
def catAxis0 (x y : NDArray) : NDArray :=
  ⟨(x.shape.headD 0 + y.shape.headD 0) :: y.shape.tail, x.data ++ y.data⟩

end NDArray

/-- Chunk a flat real list into (real, imaginary) pairs (trailing axis 2). -/
def complexPairs : List ℚ → List (ℚ × ℚ)
  | re :: im :: rest => (re, im) :: complexPairs rest
  | _ => []

/-- The external collaborators imported as `from direct.data import transforms
as T`, plus `T.to_tensor`.  They are out of scope for this module (the spec
treats them as given callables with documented contracts), so the stage
semantics is parametric in them. -/
structure ExtOps where
  /-- `T.modulus`: complex magnitude, reducing the trailing complex axis. -/
  modulus : NDArray → NDArray
  /-- `T.apply_padding x p`: zero the entries of `x` flagged by the padding
  mask `p`. -/
  applyPadding : NDArray → NDArray → NDArray
  /-- `T.apply_mask k m` (first component of the returned pair). -/
  applyMaskOp : NDArray → NDArray → NDArray
  /-- `T.root_sum_of_squares x dim`. -/
  rss : NDArray → ℕ → NDArray
  /-- `T.complex_multiplication`. -/
  complexMul : NDArray → NDArray → NDArray
  /-- `T.conjugate`. -/
  conjugate : NDArray → NDArray
  /-- `T.to_tensor(...).float()`: materialize a numpy complex array as a
  torch tensor with a trailing real/imaginary axis of size 2. -/
  toTensorOp : CArray → NDArray
  /-- `T.safe_divide`. -/
  safeDivide : NDArray → NDArray → NDArray

/-- A mask-generation callable: `mask_func(shape=..., seed=..., return_acs=...)`. -/
abbrev MaskFunc := List ℕ → Option (List ℕ) → Bool → NDArray

/-- The external croppers used by `CropKspace`: `T.complex_center_crop`
(no seed) and `T.complex_random_crop` (sampler type, sigma, seed). -/
structure CropExt where
  centerCrop : NDArray → List ℕ → NDArray
  randomCrop : Option String → Option (List ℚ) → NDArray → List ℕ → Option (List ℕ) → NDArray

/-- `Compose.__call__`: apply the transforms in list order, feeding each
stage's returned sample into the next; an exception aborts the run. -/
def composeRun (ts : List (Sample → Except PErr Sample)) (s : Sample) :
    Except PErr Sample :=
  match ts with
  | [] => .ok s
  | t :: rest =>
    match t s with
    | .ok s2 => composeRun rest s2
    | .error e => .error e

/-- The seed expression shared by `CreateSamplingMask.__call__` (line 133),
`CropKspace.__call__` (lines 302-304) and `EstimateBodyCoilImage.__call__`:
`None if not use_seed else tuple(map(ord, str(sample["filename"])))`. -/
def filenameSeed (useSeed : Bool) (s : Sample) : Except PErr (Option (List ℕ)) :=
  if useSeed then
    match s.get? "filename" with
    | none => .error (.keyError "filename")
    | some v => .ok (some ((Value.pyStr v).data.map Char.toNat))
  else .ok none

/-- `sample["kspace"].shape[1:]` for a torch-tensor k-space. -/
def kspaceShapeTail (s : Sample) : Except PErr (List ℕ) :=
  match s.get? "kspace" with
  | none => .error (.keyError "kspace")
  | some (.arr a) => .ok a.shape.tail
  | some _ => .error (.typeError "kspace tensor expected")

/-- The shape argument `CreateSamplingMask.__call__` computes in lines
125-131: the stored shape plus the complex axis, with falsy entries filled
from `kspace.shape[1:-1]`, or `kspace.shape[1:]` when no shape is stored. -/
def csmShape (shape : Option (List (Option ℕ))) (s : Sample) :
    Except PErr (List ℕ) :=
  match shape with
  | none => kspaceShapeTail s
  | some sh =>
    if sh.isEmpty then kspaceShapeTail s
    else if sh.any (fun o => o = none) then
      match s.get? "kspace" with
      | none => .error (.keyError "kspace")
      | some (.arr a) =>
        let ks := a.shape.tail.dropLast
        .ok ((sh.mapIdx (fun i o =>
          match o with
          | some n => if n = 0 then ks.getD i 0 else n
          | none => ks.getD i 0)) ++ [2])
      | some _ => .error (.typeError "kspace tensor expected")
    else .ok ((sh.map (fun o => o.getD 0)) ++ [2])

/-- The shape argument of the sampling-mask call as a pure function of the
stored shape and the k-space tensor shape (same computation as `csmShape`,
lines 125-131). -/
def csmShapeOf (shape : Option (List (Option ℕ))) (kshape : List ℕ) : List ℕ :=
  match shape with
  | none => kshape.tail
  | some sh =>
    if sh.isEmpty then kshape.tail
    else if sh.any (fun o => o = none) then
      (sh.mapIdx (fun i o =>
        match o with
        | some n => if n = 0 then (kshape.tail.dropLast).getD i 0 else n
        | none => (kshape.tail.dropLast).getD i 0)) ++ [2]
    else (sh.map (fun o => o.getD 0)) ++ [2]

/-- `CreateSamplingMask.__call__`. -/
def createSamplingMaskCall (ops : ExtOps) (maskFunc : MaskFunc)
    (shape : Option (List (Option ℕ))) (useSeed returnAcs : Bool)
    (s : Sample) : Except PErr Sample :=
  match csmShape shape s with
  | .error e => .error e
  | .ok shp =>
    match filenameSeed useSeed s with
    | .error e => .error e
    | .ok seed =>
      let mask0 := maskFunc shp seed false
      match
        (match s.get? "padding" with
         | none => .ok mask0
         | some (.arr p) => .ok (ops.applyPadding mask0 p)
         | some _ => .error (.typeError "padding tensor expected")
          : Except PErr NDArray) with
      | .error e => .error e
      | .ok mask1 =>
        let s1 := s.set "sampling_mask" (.arr mask1)
        if returnAcs then
          match kspaceShapeTail s1 with
          | .error e => .error e
          | .ok ksh => .ok (s1.set "acs_mask" (.arr (maskFunc ksh seed true)))
        else .ok s1

/-- A Python value passed as the `crop` argument of `CropKspace.__init__`. -/
inductive CropArg where
  | key (s : String)
  | size (l : List ℕ)
  | notIterable
deriving DecidableEq

/-- A validated crop specification (a key into the sample or a fixed shape). -/
inductive CropSpec where
  | key (s : String)
  | size (l : List ℕ)
deriving DecidableEq

/-- Configuration stored by a successfully constructed `CropKspace`. -/
structure CropCfg where
  crop : CropSpec
  imageSpaceCenterCrop : Bool
  samplerType : Option String
  sigma : Option (List ℚ)
  useSeed : Bool
deriving DecidableEq

/-- `CropKspace.__init__`: rejects a `crop` argument that is neither an
iterable nor a string with a `ValueError` (lines 259-263). -/
def cropKspaceInit (crop : CropArg) (imageSpaceCenterCrop : Bool)
    (samplerType : Option String) (sigma : Option (List ℚ)) (useSeed : Bool) :
    Except PErr CropCfg :=
  match crop with
  | .key k => .ok ⟨.key k, imageSpaceCenterCrop, samplerType, sigma, useSeed⟩
  | .size l => .ok ⟨.size l, imageSpaceCenterCrop, samplerType, sigma, useSeed⟩
  | .notIterable => .error (.valueError "Invalid input for crop.")

/-- The crop-shape computation of `CropKspace.__call__` (lines 294-298):
either the first two components of the named sample field, or the stored
fixed shape. -/
def cropShapeExc (crop : CropSpec) (s : Sample) : Except PErr (List ℕ) :=
  match crop with
  | .key ck =>
    match s.get? ck with
    | none => .error (.assertionError "crop key not found in sample")
    | some (.intList l) => .ok (l.take 2)
    | some _ => .error (.typeError "crop key value expected to be a size")
  | .size l => .ok l

/-- `CropKspace.__call__`: backproject the k-space, crop the image (centered,
or randomly with the filename-derived seed), and forward-project the crop
back, overwriting `kspace`. -/
def cropKspaceCall (ext : CropExt)
    (forwardOp backwardOp : NDArray → Option (List ℕ) → NDArray)
    (cfg : CropCfg) (s : Sample) : Except PErr Sample :=
  match s.get? "kspace" with
  | none => .error (.keyError "kspace")
  | some (.arr kspace) =>
    let backprojected := backwardOp kspace none
    match cropShapeExc cfg.crop s with
    | .error e => .error e
    | .ok cropShape =>
      if cfg.imageSpaceCenterCrop then
        .ok (s.set "kspace"
          (.arr (forwardOp (ext.centerCrop backprojected cropShape) none)))
      else
        match filenameSeed cfg.useSeed s with
        | .error e => .error e
        | .ok seed =>
          .ok (s.set "kspace"
            (.arr (forwardOp
              (ext.randomCrop cfg.samplerType cfg.sigma backprojected cropShape seed)
              none)))
  | some _ => .error (.typeError "kspace tensor expected")

/-- `ComputeZeroPadding.__call__`: flag k-space positions whose coil-summed
magnitude is below `mean * eps` and store the broadcastable padding mask. -/
def computeZeroPaddingCall (ops : ExtOps) (kspaceKey paddingKey : String)
    (eps : ℚ) (s : Sample) : Except PErr Sample :=
  match s.get? kspaceKey with
  | none => .error (.keyError kspaceKey)
  | some (.arr a) =>
    let ksum := (ops.modulus a).sumAxis0
    let padding := ((ksum.ltScalar (ksum.mean * eps)).unsqueeze0).unsqueezeLast
    .ok (s.set paddingKey (.arr padding))
  | some _ => .error (.typeError "kspace tensor expected")

/-- `ApplyZeroPadding.__call__`: `sample[kspace_key] =
T.apply_padding(sample[kspace_key], sample[padding_key])`. -/
def applyZeroPaddingCall (ops : ExtOps) (kspaceKey paddingKey : String)
    (s : Sample) : Except PErr Sample :=
  match s.get? kspaceKey with
  | none => .error (.keyError kspaceKey)
  | some (.arr k) =>
    match s.get? paddingKey with
    | none => .error (.keyError paddingKey)
    | some (.arr p) => .ok (s.set kspaceKey (.arr (ops.applyPadding k p)))
    | some _ => .error (.typeError "padding tensor expected")
  | some _ => .error (.typeError "kspace tensor expected")

/-- `ComputeImage.__init__` performs no validation of the reconstruction
type: any string is accepted. -/
def computeImageInit (kspaceKey targetKey ty : String) :
    Except PErr (String × String × String) :=
  .ok (kspaceKey, targetKey, ty)

/-- `ComputeImage.__call__` with the default `coil_dim=0`,
`spatial_dims=(1,2)`, `complex_dim=-1`: backproject the k-space, then
dispatch on the reconstruction type; any type other than
complex/complex_mod/rss falls into the SENSE branch. -/
def computeImageCall (ops : ExtOps)
    (backwardOp : NDArray → Option (List ℕ) → NDArray)
    (kspaceKey targetKey ty : String) (s : Sample) : Except PErr Sample :=
  match s.get? kspaceKey with
  | none => .error (.keyError kspaceKey)
  | some (.arr kspaceData) =>
    let image := backwardOp kspaceData (some [1, 2])
    match
      (if ty = "complex" ∨ ty = "complex_mod" then .ok image.sumAxis0
       else if ty = "rss" then .ok (ops.rss image 0)
       else
         match s.get? "sensitivity_map" with
         | none => .error (.itemNotFound "sensitivity map")
         | some (.arr sm) => .ok ((ops.complexMul (ops.conjugate sm) image).sumAxis0)
         | some _ => .error (.typeError "sensitivity map tensor expected")
        : Except PErr NDArray) with
    | .error e => .error e
    | .ok t1 =>
      let t2 := if ty = "complex_mod" ∨ ty = "sense_mod" then ops.modulus t1 else t1
      .ok (s.set targetKey (.arr t2))
  | some _ => .error (.typeError "kspace tensor expected")

/-- `EstimateSensitivityMap.__init__`: rejects a map type other than
`unit`/`rss_estimate` with a `ValueError` (lines 570-571). -/
def estimateSensitivityMapInit (kspaceKey : String) (typeOfMap : Option String)
    (gaussianSigma : Option ℚ) :
    Except PErr (String × Option String × Option ℚ) :=
  if typeOfMap = some "unit" ∨ typeOfMap = some "rss_estimate" then
    .ok (kspaceKey, typeOfMap, gaussianSigma)
  else .error (.valueError "Expected type of map to be either unit or rss_estimate.")

/-- `PadCoilDimension.__call__` with the default `coil_dim=0` (the builder
always uses the default): no-op when the target count is falsy, the key is
absent, or the coil counts already agree; error when the data has more coils
than the target; otherwise prepend all-zero coils. -/
def padCoilDimensionCall (padCoils : Option ℕ) (key : String) (s : Sample) :
    Except PErr Sample :=
  match padCoils with
  | none => .ok s
  | some numCoils =>
    if numCoils = 0 then .ok s
    else
      match s.get? key with
      | none => .ok s
      | some (.arr a) =>
        let curr := a.shape.headD 0
        if numCoils < curr then
          match s.get? "filename" with
          | none => .error (.keyError "filename")
          | some fv => .error (.valueError
              ("Tried to pad to fewer coils than present for " ++ fv.pyStr))
        else if curr = numCoils then .ok s
        else
          let padShape := (numCoils - curr) :: a.shape.tail
          let zeros : NDArray := ⟨padShape, List.replicate padShape.prod 0⟩
          .ok (s.set key (.arr (zeros.catAxis0 a)))
      | some _ => .error (.typeError "tensor expected for coil padding")

/-- `torch.kthvalue(l, k)`: the k-th smallest element (1-indexed). -/
def kthvalue (l : List ℚ) (k : ℕ) : ℚ :=
  (List.insertionSort (fun a b => a ≤ b) l).getD (k - 1) 0

/-- `Tensor.max()` over all elements of a (nonempty) tensor. -/
def listMaxD : List ℚ → ℚ
  | [] => 0
  | x :: xs => xs.foldl max x

/-- Truthiness of the `normalize_key` attribute (`if not self.normalize_key`). -/
def optStrTruthy : Option String → Bool
  | none => false
  | some s => s != ""

/-- Truthiness of the `percentile` attribute (`if self.percentile`). -/
def optRatTruthy : Option ℚ → Bool
  | none => false
  | some q => q != 0

/-- `ComputeScalingFactor.__call__`: pass `scaling_factor` through when the
source key is literally that field, use 1.0 when no source key is
configured, and otherwise take the `int((1-p)*N)+1`-th value of the negated
magnitudes (or the maximum magnitude when no percentile is configured). -/
def computeScalingFactor (ops : ExtOps) (normalizeKey : Option String)
    (percentile : Option ℚ) (scalingFactorKey : String) (s : Sample) :
    Except PErr Sample :=
  match
    (if normalizeKey = some "scaling_factor" then
      match s.get? "scaling_factor" with
      | none => .error (.keyError "scaling_factor")
      | some v => .ok v
     else if !optStrTruthy normalizeKey then .ok (.scal 1)
     else
      match s.get? (normalizeKey.getD "") with
      | none => .error (.keyError (normalizeKey.getD ""))
      | some (.arr data) =>
        if optRatTruthy percentile then
          let p := percentile.getD 0
          let tview := (ops.modulus data).data.map (fun x => (-1 : ℚ) * x)
          let sf := kthvalue tview ((pyInt ((1 - p) * tview.length)).toNat + 1)
          .ok (.scal ((-1 : ℚ) * sf))
        else .ok (.scal (listMaxD (ops.modulus data).data))
      | some _ => .error (.typeError "tensor expected for scaling")
      : Except PErr Value) with
  | .error e => .error e
  | .ok sf => .ok (s.set scalingFactorKey sf)

/-- The default `keys_to_normalize` list of `Normalize.__init__`. -/
def normalizeDefaultKeys : List String :=
  ["masked_kspace", "target", "kspace", "body_coil_image", "initial_image",
   "initial_kspace"]

/-- Division of a sample value by the stored scaling factor.  The factor in
the pipeline is a scalar (or a single-element tensor, which broadcasts). -/
def divVal (w v : Value) : Value :=
  match v with
  | .scal q =>
    match w with
    | .arr a => .arr ⟨a.shape, a.data.map (fun x => x / q)⟩
    | .scal x => .scal (x / q)
    | w' => w'
  | .arr ⟨_, [q]⟩ =>
    match w with
    | .arr a => .arr ⟨a.shape, a.data.map (fun x => x / q)⟩
    | .scal x => .scal (x / q)
    | w' => w'
  | _ => w

/-- `Normalize.__call__`: when the scaling factor is present and truthy,
divide every allow-listed field by it and stamp `scaling_diff = 0.0`;
otherwise return the sample untouched. -/
def normalizeCall (scalingFactorKey : String) (keys : List String)
    (s : Sample) : Sample :=
  match s.get? scalingFactorKey with
  | none => s
  | some v =>
    if v.truthy then
      Sample.set
        (s.map (fun kv => (kv.1, if kv.1 ∈ keys then divVal kv.2 v else kv.2)))
        "scaling_diff" (.scal 0)
    else s

/-- `DeleteKeys.__call__`. -/
def deleteKeysCall (keys : List String) (s : Sample) : Except PErr Sample :=
  .ok (keys.foldl (fun acc k => acc.erase k) s)

/-- `ToTensor` has no `__init__`: constructing it cannot fail and performs
no validation. -/
def toTensorInit : Except PErr Unit := .ok ()

/-- The conversion `T.to_tensor(...).float()` applied to a sample value. -/
def toTensorVal (ops : ExtOps) : Value → Value
  | .carr a => .arr (ops.toTensorOp a)
  | v => v

/-- `ndim` of a sample value (numpy/torch `ndim`). -/
def valueNdim : Value → ℕ
  | .arr a => a.shape.length
  | .carr a => a.shape.length
  | _ => 0

/-- Conditionally convert the value at `key` with `f` if the key is present
(the `if key in sample:` pattern of `ToTensor.__call__`). -/
def convertIfPresent (key : String) (f : Value → Value) (s : Sample) : Sample :=
  match s.get? key with
  | none => s
  | some v => s.set key (f v)

/-- `ToTensor.__call__`: validate that the k-space is 2D or 3D plus coil
(raising a `ValueError` otherwise, at call time), then materialize the known
array-valued fields as tensors. -/
def toTensorCall (ops : ExtOps) (s : Sample) : Except PErr Sample :=
  match s.get? "kspace" with
  | none => .error (.keyError "kspace")
  | some v =>
    let ndim := valueNdim v - 1
    if ndim = 2 ∨ ndim = 3 then
      let s := s.set "kspace" (toTensorVal ops v)
      let s := convertIfPresent "initial_kspace" (toTensorVal ops) s
      let s := convertIfPresent "initial_image" (toTensorVal ops) s
      let s := convertIfPresent "sensitivity_map" (toTensorVal ops) s
      let s := convertIfPresent "target" (fun w => w) s
      let s := convertIfPresent "sampling_mask" (fun w => w) s
      let s := convertIfPresent "acs_mask" (fun w => w) s
      let s := convertIfPresent "scaling_factor" (fun w => w) s
      let s := convertIfPresent "loglikelihood_scaling" (fun w => w) s
      .ok s
    else .error (.valueError "Can only cast 2D and 3D data plus coil to tensor.")

/-- A stage descriptor: one transform instance as constructed by
`build_mri_transforms`, carrying the configuration arguments the builder
passes (the operator/mask callables, threaded unchanged from the builder
arguments, are omitted from the descriptor). -/
inductive Stage where
  | toTensorS
  | cropKspaceS (crop : CropSpec) (imageSpaceCenterCrop : Bool)
      (samplerType : Option String) (useSeed : Bool)
  | computeZeroPaddingS (kspaceKey paddingKey : String) (eps : ℚ)
  | applyZeroPaddingS (kspaceKey paddingKey : String)
  | createSamplingMaskS (shape : Option (List (Option ℕ)))
      (useSeed returnAcs : Bool)
  | estimateSensitivityMapS (kspaceKey : String) (typeOfMap : Option String)
      (gaussianSigma : Option ℚ)
  | deleteKeysS (keys : List String)
  | computeImageS (kspaceKey targetKey ty : String)
  | applyMaskS (samplingMaskKey inputKspaceKey targetKspaceKey : String)
  | estimateBodyCoilImageS (useSeed : Bool)
  | computeScalingFactorS (normalizeKey : Option String)
      (percentile : Option ℚ) (scalingFactorKey : String)
  | normalizeS (scalingFactorKey : String)
  | padCoilDimensionS (padCoils : Option ℕ) (key : String)
deriving DecidableEq

/-- The configuration surface of `build_mri_transforms` (the operator and
mask callables are abstracted to whether a mask function is configured). -/
structure BuildConfig where
  maskFunc : Bool
  crop : Option CropSpec
  cropType : Option String
  imageCenterCrop : Bool
  paddingEps : ℚ
  estimateSensitivityMaps : Bool
  estimateBodyCoilImage : Bool
  sensitivityMapsGaussian : Option ℚ
  deleteAcsMask : Bool
  deleteKspace : Bool
  imageReconType : String
  padCoils : Option ℕ
  scalingKey : String
  scalePercentile : Option ℚ
  useSeed : Bool
deriving DecidableEq

/-- Python truthiness of the `crop` argument (`if crop:`). -/
def cropTruthy : Option CropSpec → Bool
  | none => false
  | some (.key s) => s != ""
  | some (.size l) => !l.isEmpty

/-- The `shape` argument handed to `CreateSamplingMask` by the builder:
`None if (isinstance(crop, str)) else crop` (line 1124). -/
def csmShapeArgOfCrop : Option CropSpec → Option (List (Option ℕ))
  | none => none
  | some (.key _) => none
  | some (.size l) => some (l.map some)

/-- `build_mri_transforms` (lines 1106-1166): assemble the ordered stage
list from the configuration flags. -/
def buildMriTransforms (cfg : BuildConfig) : List Stage :=
  [Stage.toTensorS]
  ++ (if cropTruthy cfg.crop then
        [Stage.cropKspaceS ((cfg.crop).getD (.size [])) cfg.imageCenterCrop
          cfg.cropType cfg.useSeed]
      else [])
  ++ (if cfg.maskFunc then
        [Stage.computeZeroPaddingS "kspace" "padding" cfg.paddingEps,
         Stage.applyZeroPaddingS "kspace" "padding",
         Stage.createSamplingMaskS (csmShapeArgOfCrop cfg.crop) cfg.useSeed
           cfg.estimateSensitivityMaps]
      else [])
  ++ [Stage.estimateSensitivityMapS "kspace"
        (some (if !cfg.estimateSensitivityMaps then "unit" else "rss_estimate"))
        cfg.sensitivityMapsGaussian]
  ++ (if cfg.deleteAcsMask then [Stage.deleteKeysS ["acs_mask"]] else [])
  ++ [Stage.computeImageS "kspace" "target" cfg.imageReconType,
      Stage.applyMaskS "sampling_mask" "kspace" "masked_kspace"]
  ++ (if cfg.estimateBodyCoilImage && cfg.maskFunc then
        [Stage.estimateBodyCoilImageS cfg.useSeed]
      else [])
  ++ [Stage.computeScalingFactorS (some cfg.scalingKey) cfg.scalePercentile
        "scaling_factor",
      Stage.normalizeS "scaling_factor",
      Stage.padCoilDimensionS cfg.padCoils "masked_kspace",
      Stage.padCoilDimensionS cfg.padCoils "sensitivity_map"]
  ++ (if cfg.deleteKspace then [Stage.deleteKeysS ["kspace"]] else [])

/-- The stage list exactly as the claim describes it, with the body-coil
stage conditioned on the body-coil flag alone.  This definition follows the
words of the specification, for comparison with `buildMriTransforms`. -/
def specClaimedStageList (cfg : BuildConfig) : List Stage :=
  [Stage.toTensorS]
  ++ (if cropTruthy cfg.crop then
        [Stage.cropKspaceS ((cfg.crop).getD (.size [])) cfg.imageCenterCrop
          cfg.cropType cfg.useSeed]
      else [])
  ++ (if cfg.maskFunc then
        [Stage.computeZeroPaddingS "kspace" "padding" cfg.paddingEps,
         Stage.applyZeroPaddingS "kspace" "padding",
         Stage.createSamplingMaskS (csmShapeArgOfCrop cfg.crop) cfg.useSeed
           cfg.estimateSensitivityMaps]
      else [])
  ++ [Stage.estimateSensitivityMapS "kspace"
        (some (if !cfg.estimateSensitivityMaps then "unit" else "rss_estimate"))
        cfg.sensitivityMapsGaussian]
  ++ (if cfg.deleteAcsMask then [Stage.deleteKeysS ["acs_mask"]] else [])
  ++ [Stage.computeImageS "kspace" "target" cfg.imageReconType,
      Stage.applyMaskS "sampling_mask" "kspace" "masked_kspace"]
  ++ (if cfg.estimateBodyCoilImage then
        [Stage.estimateBodyCoilImageS cfg.useSeed]
      else [])
  ++ [Stage.computeScalingFactorS (some cfg.scalingKey) cfg.scalePercentile
        "scaling_factor",
      Stage.normalizeS "scaling_factor",
      Stage.padCoilDimensionS cfg.padCoils "masked_kspace",
      Stage.padCoilDimensionS cfg.padCoils "sensitivity_map"]
  ++ (if cfg.deleteKspace then [Stage.deleteKeysS ["kspace"]] else [])

/-! ### Auxiliary specification-side definitions and concrete fixtures -/

/-- The k-th largest element of a list (1-indexed): the element of rank k
counted from the largest values. -/
def rankFromLargest (l : List ℚ) (k : ℕ) : ℚ :=
  (List.insertionSort (fun a b => b ≤ a) l).getD (k - 1) 0

/-- The scaling factor as the claim words it: the element of rank
ceil((1-p)*N) counted from the smallest magnitude values.  This definition
follows the words of the specification, for comparison with
`computeScalingFactor`. -/
def specClaimedScalingFactor (mags : List ℚ) (p : ℚ) : ℚ :=
  (List.insertionSort (fun a b => a ≤ b) mags).getD
    ((Int.ceil ((1 - p) * (mags.length : ℚ))).toNat - 1) 0

/-- Extract the value stored at a key of a successful pipeline result. -/
def keyOf (r : Except PErr Sample) (k : String) : Option Value :=
  match r with
  | .ok s => s.get? k
  | .error _ => none

/-- A concrete instantiation of `T.modulus` used for witnesses and
counterexamples: on data whose imaginary parts are zero it is exactly the
complex magnitude. -/
def cexModulus (a : NDArray) : NDArray :=
  ⟨a.shape.dropLast, (complexPairs a.data).map (fun z => |z.1| + |z.2|)⟩

/-- Concrete external collaborators for witnesses and counterexamples. -/
def cexOps : ExtOps where
  modulus := cexModulus
  applyPadding := fun m p =>
    ⟨m.shape, List.zipWith (fun x y => if y = 0 then x else 0) m.data p.data⟩
  applyMaskOp := fun k m => ⟨k.shape, List.zipWith (fun x y => x * y) k.data m.data⟩
  rss := fun a _ => ⟨a.shape.tail.dropLast, List.replicate a.shape.tail.dropLast.prod 0⟩
  complexMul := fun x y => ⟨x.shape, List.zipWith (fun u v => u * v) x.data y.data⟩
  conjugate := fun x => x
  toTensorOp := fun ca => ⟨ca.shape ++ [2], ca.data.foldr (fun z acc => z.1 :: z.2 :: acc) []⟩
  safeDivide := fun x _ => x

/-- A concrete shape-preserving operator standing in for the Fourier
operators in witnesses and counterexamples. -/
def cexOpDim : NDArray → Option (List ℕ) → NDArray := fun x _ => x

/-- Concrete croppers whose output shape is the coil count followed by the
crop shape and the complex axis, as the real croppers produce. -/
def cexCropExt : CropExt where
  centerCrop := fun x sh =>
    ⟨x.shape.headD 0 :: (sh ++ [2]), List.replicate (x.shape.headD 0 * (sh ++ [2]).prod) 0⟩
  randomCrop := fun _ _ x sh _ =>
    ⟨x.shape.headD 0 :: (sh ++ [2]), List.replicate (x.shape.headD 0 * (sh ++ [2]).prod) 0⟩

/-- Counterexample configuration for the builder: no mask function
configured but the body-coil flag set. -/
def c1Cfg : BuildConfig where
  maskFunc := false
  crop := none
  cropType := some "uniform"
  imageCenterCrop := true
  paddingEps := 1 / 10000
  estimateSensitivityMaps := true
  estimateBodyCoilImage := true
  sensitivityMapsGaussian := none
  deleteAcsMask := true
  deleteKspace := true
  imageReconType := "rss"
  padCoils := none
  scalingKey := "masked_kspace"
  scalePercentile := some (99 / 100)
  useSeed := true

/-- A mask generator that records the shape it was called with. -/
def c2MaskFunc : MaskFunc := fun sh _ _ => ⟨sh, []⟩

/-- A 4x4 single-coil k-space sample fed into the cropped pipeline. -/
def c2Sample : Sample :=
  [("kspace", .arr ⟨[1, 4, 4, 2], List.replicate 32 1⟩), ("filename", .str "f")]

/-- The crop-stage configuration of the counterexample pipeline: center
crop to 2x2 as the builder constructs it for `crop=(2,2)`. -/
def c2CropCfg : CropCfg where
  crop := .size [2, 2]
  imageSpaceCenterCrop := true
  samplerType := some "uniform"
  sigma := none
  useSeed := true

/-- The canonical pipeline slice from the crop stage to the sampling-mask
stage, run on `c2Sample`. -/
def c2Run : Except PErr Sample :=
  composeRun
    [cropKspaceCall cexCropExt cexOpDim cexOpDim c2CropCfg,
     computeZeroPaddingCall cexOps "kspace" "padding" 0,
     applyZeroPaddingCall cexOps "kspace" "padding",
     createSamplingMaskCall cexOps c2MaskFunc (some [some 2, some 2]) true true]
    c2Sample

/-- The filename-derived seed of `c2Sample`. -/
def c2Seed : Option (List ℕ) := some ("f".data.map Char.toNat)

/-- Tensor whose magnitude distribution is 1, 2, 3, 4 (imaginary parts 0). -/
def c3Arr : NDArray := ⟨[4, 2], [1, 0, 2, 0, 3, 0, 4, 0]⟩

/-- The rational 1/2, built in normal form so that structural evaluation
(`decide`) works on it directly. -/
def pHalf : ℚ := Rat.mk' 1 2 (by decide) (Nat.coprime_one_left 2)

/-- Sample holding `c3Arr` under the default scaling source key. -/
def c3Sample : Sample := [("masked_kspace", .arr c3Arr), ("filename", .str "f")]

/-- Sample with a non-zero scaling factor for the normalization witness. -/
def c4S : Sample :=
  [("masked_kspace", .arr ⟨[2], [4, 6]⟩), ("scaling_factor", .scal 2),
   ("other", .scal 5)]

/-- Sample with a zero scaling factor. -/
def c4ZeroS : Sample :=
  [("masked_kspace", .arr ⟨[2], [4, 6]⟩), ("scaling_factor", .scal 0)]

/-- Sample lacking the scaling-factor key. -/
def c4AbsentS : Sample := [("masked_kspace", .arr ⟨[2], [4, 6]⟩)]

/-- A 2-coil 2x2 complex k-space tensor. -/
def c5K : NDArray :=
  ⟨[2, 2, 2, 2], [1, 0, 0, 0, 0, 0, 0, 0, 0, 1, 0, 0, 0, 0, 0, 0]⟩

/-- An all-ones sensitivity map of the same shape. -/
def c5M : NDArray := ⟨[2, 2, 2, 2], List.replicate 16 1⟩

/-- Sample with k-space and sensitivity map. -/
def c5S : Sample :=
  [("kspace", .arr c5K), ("sensitivity_map", .arr c5M), ("filename", .str "f")]

/-- Sample with k-space but no sensitivity map. -/
def c6NoMapS : Sample := [("kspace", .arr c5K)]

/-- A mask generator returning an all-ones mask of the requested shape. -/
def c7MaskFunc : MaskFunc := fun sh _ _ => ⟨sh, List.replicate sh.prod 1⟩

/-- Sample with a padding field flagging every position. -/
def c7S1 : Sample :=
  [("filename", .str "a"), ("kspace", .arr ⟨[1, 2, 2, 2], List.replicate 8 1⟩),
   ("padding", .arr ⟨[1, 2, 2, 1], List.replicate 8 1⟩)]

/-- Sample identical to `c7S1` except that it has no padding field. -/
def c7S2 : Sample :=
  [("filename", .str "a"), ("kspace", .arr ⟨[1, 2, 2, 2], List.replicate 8 1⟩)]

/-- Sample with the same filename and k-space shape as `c7S2` but different
k-space data. -/
def c7S3 : Sample :=
  [("filename", .str "a"), ("kspace", .arr ⟨[1, 2, 2, 2], List.replicate 8 5⟩)]

/-- Sample with the same filename and the same k-space value as `c7S2` plus
an unrelated extra field. -/
def c7S4 : Sample :=
  [("filename", .str "a"), ("kspace", .arr ⟨[1, 2, 2, 2], List.replicate 8 1⟩),
   ("extra", .scal 7)]

/-- A single-coil tensor for the coil-padding claims. -/
def c8A : NDArray := ⟨[1, 2], [5, 7]⟩

/-- Sample holding `c8A` under the masked k-space key. -/
def c8S : Sample := [("masked_kspace", .arr c8A), ("filename", .str "f")]

/-- A two-coil tensor for the coil-padding error case. -/
def c8B : NDArray := ⟨[2, 2], [1, 2, 3, 4]⟩

/-- Sample holding the two-coil tensor `c8B`. -/
def c8S2 : Sample := [("masked_kspace", .arr c8B), ("filename", .str "f")]

/-- Sample whose raw k-space has spatial dimensionality 1 plus coil. -/
def c9BadSample : Sample :=
  [("kspace", .carr ⟨[4, 8], List.replicate 32 ((1 : ℚ), (0 : ℚ))⟩)]

/-- Sample whose raw k-space has spatial dimensionality 2 plus coil. -/
def c9GoodSample : Sample :=
  [("kspace", .carr ⟨[1, 4, 8], List.replicate 32 ((1 : ℚ), (0 : ℚ))⟩)]

/-! ### Basic lemmas about samples and sorting -/

theorem Sample.get?_set_self (s : Sample) (k : String) (v : Value) :
    (s.set k v).get? k = some v := by
  induction s with
  | nil => simp [Sample.set, Sample.get?]
  | cons kv rest ih =>
    by_cases h : kv.1 = k
    · simp [Sample.set, Sample.get?, h]
    · simp [Sample.set, Sample.get?, h, ih]

theorem Sample.get?_set_ne (s : Sample) (k k' : String) (v : Value)
    (h : k ≠ k') : (s.set k v).get? k' = s.get? k' := by
  induction s with
  | nil => simp [Sample.set, Sample.get?, h]
  | cons kv rest ih =>
    by_cases hk : kv.1 = k
    · simp [Sample.set, Sample.get?, hk, h, ih]
    · by_cases hk' : kv.1 = k'
      · simp [Sample.set, Sample.get?, hk, hk', Ne.symm h]
      · simp [Sample.set, Sample.get?, hk, hk', ih]

theorem Sample.get?_entryMap (f : String → Value → Value) (s : Sample)
    (k : String) :
    Sample.get? (s.map (fun kv => (kv.1, f kv.1 kv.2))) k =
      (s.get? k).map (f k) := by
  induction s with
  | nil => simp [Sample.get?]
  | cons kv rest ih =>
    by_cases h : kv.1 = k
    · simp [Sample.get?, h]
    · simp [Sample.get?, h, ih]

theorem orderedInsert_neg (x : ℚ) (l : List ℚ) :
    List.orderedInsert (fun a b => a ≤ b) (-x) (l.map (fun y => -y)) =
      (List.orderedInsert (fun a b => b ≤ a) x l).map (fun y => -y) := by
  induction l with
  | nil => rfl
  | cons y ys ih =>
    simp only [List.map_cons, List.orderedInsert]
    by_cases h : y ≤ x
    · rw [if_pos (neg_le_neg h), if_pos h, List.map_cons, List.map_cons]
    · rw [if_neg (fun hc => h (neg_le_neg_iff.mp hc)), if_neg h, List.map_cons, ih]

theorem insertionSort_neg (l : List ℚ) :
    List.insertionSort (fun a b => a ≤ b) (l.map (fun y => -y)) =
      (List.insertionSort (fun a b => b ≤ a) l).map (fun y => -y) := by
  induction l with
  | nil => rfl
  | cons x xs ih =>
    simp only [List.map_cons, List.insertionSort, ih, orderedInsert_neg]

theorem getD_neg (l : List ℚ) (n : ℕ) :
    (l.map (fun y => -y)).getD n 0 = -(l.getD n 0) := by
  have h := List.getD_map (l := l) (n := n) (d := 0) (fun y => -y)
  simpa using h

/-- The negate-kthvalue-negate idiom selects the k-th largest element. -/
theorem neg_kthvalue_neg (l : List ℚ) (k : ℕ) :
    (-1 : ℚ) * kthvalue (l.map (fun x => (-1 : ℚ) * x)) k = rankFromLargest l k := by
  have hmap : l.map (fun x => (-1 : ℚ) * x) = l.map (fun y => -y) := by
    simp [neg_one_mul]
  rw [kthvalue, rankFromLargest, hmap, insertionSort_neg, getD_neg,
    neg_one_mul, neg_neg]

/-! ### Claim C1 -/

/-- C1 (counterexample): with no mask function configured but the body-coil
flag set, `build_mri_transforms` omits the body-coil stage, so the list the
claim describes (body-coil stage conditioned on the flag alone) differs from
the list the builder assembles. -/
theorem c1_counterexample : buildMriTransforms c1Cfg ≠ specClaimedStageList c1Cfg := by
  decide

/-- C1 (amended): for every configuration, `build_mri_transforms` assembles
exactly the canonical ordered stage list — materialize, [crop], [padding
detect, padding apply, mask create] when a mask function is configured,
sensitivity estimate, [delete ACS mask], compute target, apply mask,
[body-coil estimate, included only when the body-coil flag is set AND a mask
function is configured], scaling factor, normalize, coil padding of the
masked k-space and of the sensitivity map, [delete raw k-space] — and
`Compose` applies a stage list in exactly this order, feeding each stage's
returned sample into the next. -/
theorem c1_build_canonical_order (cfg : BuildConfig) :
    buildMriTransforms cfg =
      [Stage.toTensorS]
      ++ (if cropTruthy cfg.crop then
            [Stage.cropKspaceS ((cfg.crop).getD (.size [])) cfg.imageCenterCrop
              cfg.cropType cfg.useSeed]
          else [])
      ++ (if cfg.maskFunc then
            [Stage.computeZeroPaddingS "kspace" "padding" cfg.paddingEps,
             Stage.applyZeroPaddingS "kspace" "padding",
             Stage.createSamplingMaskS (csmShapeArgOfCrop cfg.crop) cfg.useSeed
               cfg.estimateSensitivityMaps]
          else [])
      ++ [Stage.estimateSensitivityMapS "kspace"
            (some (if !cfg.estimateSensitivityMaps then "unit" else "rss_estimate"))
            cfg.sensitivityMapsGaussian]
      ++ (if cfg.deleteAcsMask then [Stage.deleteKeysS ["acs_mask"]] else [])
      ++ [Stage.computeImageS "kspace" "target" cfg.imageReconType,
          Stage.applyMaskS "sampling_mask" "kspace" "masked_kspace"]
      ++ (if cfg.estimateBodyCoilImage && cfg.maskFunc then
            [Stage.estimateBodyCoilImageS cfg.useSeed]
          else [])
      ++ [Stage.computeScalingFactorS (some cfg.scalingKey) cfg.scalePercentile
            "scaling_factor",
          Stage.normalizeS "scaling_factor",
          Stage.padCoilDimensionS cfg.padCoils "masked_kspace",
          Stage.padCoilDimensionS cfg.padCoils "sensitivity_map"]
      ++ (if cfg.deleteKspace then [Stage.deleteKeysS ["kspace"]] else [])
    ∧ (∀ (t : Sample → Except PErr Sample) (ts : List (Sample → Except PErr Sample))
        (s : Sample),
        composeRun (t :: ts) s =
          match t s with
          | .ok s2 => composeRun ts s2
          | .error e => .error e)
    ∧ (∀ s : Sample, composeRun [] s = .ok s) :=
  ⟨rfl, fun _ _ _ => rfl, fun _ => rfl⟩

/-! ### Claim C9 -/

/-- C9 (counterexample): constructing `ToTensor` cannot fail — the
unsupported-dimensionality condition is checked only at call time, when a
sample is processed, contradicting the claim that all three
invalid-configuration conditions are raised at construction time. -/
theorem c9_counterexample :
    toTensorInit = .ok () ∧
      toTensorCall cexOps c9BadSample =
        .error (.valueError "Can only cast 2D and 3D data plus coil to tensor.") := by
  constructor
  · rfl
  · decide

/-- C9 (amended): a malformed crop specification and an unknown
sensitivity-map type are fatal errors raised at construction time of the
corresponding stage (and valid arguments construct successfully), while the
unsupported-dimensionality condition is a fatal error raised at call time by
the tensor-materialization stage when a sample is processed — its
construction never fails. -/
theorem c9_construction_and_call_errors :
    (∀ (center : Bool) (sty : Option String) (sg : Option (List ℚ)) (us : Bool),
      cropKspaceInit .notIterable center sty sg us =
        .error (.valueError "Invalid input for crop."))
    ∧ (∀ (k : String) (center : Bool) (sty : Option String)
        (sg : Option (List ℚ)) (us : Bool),
        cropKspaceInit (.key k) center sty sg us = .ok ⟨.key k, center, sty, sg, us⟩)
    ∧ (∀ (l : List ℕ) (center : Bool) (sty : Option String)
        (sg : Option (List ℚ)) (us : Bool),
        cropKspaceInit (.size l) center sty sg us = .ok ⟨.size l, center, sty, sg, us⟩)
    ∧ (∀ (kk : String) (tm : Option String) (gs : Option ℚ),
        tm ≠ some "unit" → tm ≠ some "rss_estimate" →
          estimateSensitivityMapInit kk tm gs =
            .error (.valueError "Expected type of map to be either unit or rss_estimate."))
    ∧ (∀ (kk : String) (gs : Option ℚ),
        estimateSensitivityMapInit kk (some "unit") gs = .ok ("kspace", some "unit", gs) ∨
          estimateSensitivityMapInit kk (some "unit") gs = .ok (kk, some "unit", gs))
    ∧ toTensorInit = .ok ()
    ∧ (∀ (ops : ExtOps) (s : Sample) (v : Value),
        s.get? "kspace" = some v → valueNdim v - 1 ≠ 2 → valueNdim v - 1 ≠ 3 →
          toTensorCall ops s =
            .error (.valueError "Can only cast 2D and 3D data plus coil to tensor."))
    ∧ (∀ (ops : ExtOps) (s : Sample) (v : Value),
        s.get? "kspace" = some v → (valueNdim v - 1 = 2 ∨ valueNdim v - 1 = 3) →
          ∃ s2, toTensorCall ops s = .ok s2) := by
  refine ⟨fun _ _ _ _ => rfl, fun _ _ _ _ _ => rfl, fun _ _ _ _ _ => rfl,
    ?_, fun kk gs => Or.inr rfl, rfl, ?_, ?_⟩
  · intro kk tm gs h1 h2
    rw [estimateSensitivityMapInit, if_neg]
    rintro (h | h)
    · exact h1 h
    · exact h2 h
  · intro ops s v hv h2 h3
    rw [toTensorCall, hv]
    show (if valueNdim v - 1 = 2 ∨ valueNdim v - 1 = 3 then _ else _) = _
    rw [if_neg (fun hor => Or.elim hor h2 h3)]
  · intro ops s v hv h23
    rw [toTensorCall, hv]
    show ∃ s2, (if valueNdim v - 1 = 2 ∨ valueNdim v - 1 = 3 then Except.ok _ else _) =
      Except.ok s2
    exact ⟨_, if_pos h23⟩

/-- C9 (witness): a non-iterable crop argument and an unknown map type fail
at construction; a 1D-plus-coil sample fails at call time while a
2D-plus-coil sample is accepted. -/
theorem c9_witness :
    cropKspaceInit .notIterable true (some "uniform") none true =
      .error (.valueError "Invalid input for crop.")
    ∧ estimateSensitivityMapInit "kspace" (some "foo") none =
        .error (.valueError "Expected type of map to be either unit or rss_estimate.")
    ∧ toTensorCall cexOps c9BadSample =
        .error (.valueError "Can only cast 2D and 3D data plus coil to tensor.")
    ∧ ∃ s2, toTensorCall cexOps c9GoodSample = .ok s2 :=
  ⟨c9_construction_and_call_errors.1 true (some "uniform") none true,
   c9_construction_and_call_errors.2.2.2.1 "kspace" (some "foo") none
     (by decide) (by decide),
   c9_construction_and_call_errors.2.2.2.2.2.2.1 cexOps c9BadSample _ rfl
     (by decide) (by decide),
   c9_construction_and_call_errors.2.2.2.2.2.2.2 cexOps c9GoodSample _ rfl
     (Or.inl (by decide))⟩

theorem composeRun_cons_ok (t : Sample → Except PErr Sample)
    (ts : List (Sample → Except PErr Sample)) (s s' : Sample)
    (h : t s = .ok s') : composeRun (t :: ts) s = composeRun ts s' := by
  rw [composeRun, h]

theorem kspaceShapeTail_arr (s : Sample) (a : NDArray)
    (h : s.get? "kspace" = some (.arr a)) :
    kspaceShapeTail s = .ok a.shape.tail := by
  rw [kspaceShapeTail, h]

theorem kspaceShapeTail_set_ne (s : Sample) (k : String) (v : Value)
    (hk : k ≠ "kspace") :
    kspaceShapeTail (s.set k v) = kspaceShapeTail s := by
  rw [kspaceShapeTail, Sample.get?_set_ne s k "kspace" v hk, kspaceShapeTail]

theorem filenameSeed_ok (u : Bool) (s : Sample) (fv : Value)
    (h : s.get? "filename" = some fv) :
    filenameSeed u s =
      .ok (if u then some ((Value.pyStr fv).data.map Char.toNat) else none) := by
  cases u with
  | false => rfl
  | true => rw [filenameSeed, if_pos rfl, h]; rfl

/-- `csmShape` succeeds whenever the sample holds a k-space tensor, and
depends on the sample only through the shape of that tensor. -/
theorem csmShape_arr (shape : Option (List (Option ℕ))) (s : Sample)
    (a : NDArray) (h : s.get? "kspace" = some (.arr a)) :
    csmShape shape s = .ok (csmShapeOf shape a.shape) := by
  cases shape with
  | none => rw [csmShape, kspaceShapeTail_arr s a h]; rfl
  | some sh =>
    rw [csmShape, csmShapeOf]
    by_cases he : sh.isEmpty
    · rw [if_pos he, if_pos he, kspaceShapeTail_arr s a h]
    · rw [if_neg he, if_neg he]
      by_cases hn : sh.any (fun o => o = none)
      · rw [if_pos hn, if_pos hn, h]
      · rw [if_neg hn, if_neg hn]

/-- Reduction of `CreateSamplingMask.__call__` in terms of the three
observations it makes of the sample: the mask shape argument, the seed, and
the k-space shape for the ACS call. -/
theorem createSamplingMask_spec (ops : ExtOps) (maskFunc : MaskFunc)
    (shape : Option (List (Option ℕ))) (useSeed returnAcs : Bool) (s : Sample)
    (shp ksh : List ℕ) (sd : Option (List ℕ))
    (h1 : csmShape shape s = .ok shp)
    (h2 : filenameSeed useSeed s = .ok sd)
    (h4 : kspaceShapeTail s = .ok ksh) :
    (s.get? "padding" = none →
      createSamplingMaskCall ops maskFunc shape useSeed returnAcs s =
        .ok (if returnAcs then
            Sample.set (s.set "sampling_mask" (.arr (maskFunc shp sd false)))
              "acs_mask" (.arr (maskFunc ksh sd true))
          else s.set "sampling_mask" (.arr (maskFunc shp sd false))))
    ∧ (∀ pa, s.get? "padding" = some (.arr pa) →
        createSamplingMaskCall ops maskFunc shape useSeed returnAcs s =
          .ok (if returnAcs then
              Sample.set (s.set "sampling_mask"
                  (.arr (ops.applyPadding (maskFunc shp sd false) pa)))
                "acs_mask" (.arr (maskFunc ksh sd true))
            else s.set "sampling_mask"
              (.arr (ops.applyPadding (maskFunc shp sd false) pa)))) := by
  have h4' : ∀ v : Value, kspaceShapeTail (s.set "sampling_mask" v) = .ok ksh :=
    fun v => by rw [kspaceShapeTail_set_ne s "sampling_mask" v (by decide), h4]
  refine ⟨fun hpad => ?_, fun pa hpad => ?_⟩ <;> cases returnAcs <;>
    simp only [createSamplingMaskCall, h1, h2, hpad, h4', if_true, if_false,
      Bool.false_eq_true, ite_true, ite_false]

/-! ### Claim C2 -/

/-- The canonical pipeline slice with a fixed (h, w) crop: the sampling-mask
stage generates the ACS mask from the sample's current (cropped) k-space
shape, which coincides with the primary mask shape (h, w, 2). -/
theorem cropPipeline_acs_shape (ops : ExtOps) (maskFunc : MaskFunc)
    (ext : CropExt) (fw bw : NDArray → Option (List ℕ) → NDArray)
    (center useSeed : Bool) (sty : Option String) (sg : Option (List ℚ))
    (eps : ℚ) (h w c H W : ℕ) (s : Sample) (a : NDArray) (f : Value)
    (hb : ∀ x d, (bw x d).shape = x.shape)
    (hf : ∀ x d, (fw x d).shape = x.shape)
    (hcc : ∀ x sh, (ext.centerCrop x sh).shape = x.shape.headD 0 :: (sh ++ [2]))
    (hrc : ∀ ty sgm x sh sdl,
      (ext.randomCrop ty sgm x sh sdl).shape = x.shape.headD 0 :: (sh ++ [2]))
    (hap : ∀ x p2, (ops.applyPadding x p2).shape = x.shape)
    (hk : s.get? "kspace" = some (.arr a))
    (hsh : a.shape = [c, H, W, 2])
    (hfn : s.get? "filename" = some f) :
    ∃ s4 sd pad,
      composeRun
        [cropKspaceCall ext fw bw ⟨.size [h, w], center, sty, sg, useSeed⟩,
         computeZeroPaddingCall ops "kspace" "padding" eps,
         applyZeroPaddingCall ops "kspace" "padding",
         createSamplingMaskCall ops maskFunc (some [some h, some w]) useSeed true] s
        = .ok s4
      ∧ filenameSeed useSeed s = .ok sd
      ∧ s4.get? "sampling_mask" =
          some (.arr (ops.applyPadding (maskFunc [h, w, 2] sd false) pad))
      ∧ s4.get? "acs_mask" = some (.arr (maskFunc [h, w, 2] sd true)) := by
  have hfs : filenameSeed useSeed s =
      .ok (if useSeed then some ((Value.pyStr f).data.map Char.toNat) else none) :=
    filenameSeed_ok useSeed s f hfn
  obtain ⟨K1, e1, hK1⟩ : ∃ K1,
      cropKspaceCall ext fw bw ⟨.size [h, w], center, sty, sg, useSeed⟩ s =
        .ok (s.set "kspace" (.arr K1)) ∧ K1.shape = c :: [h, w, 2] := by
    cases center with
    | true =>
      refine ⟨fw (ext.centerCrop (bw a none) [h, w]) none, ?_, ?_⟩
      · rw [cropKspaceCall, hk]; rfl
      · rw [hf, hcc, hb, hsh]; rfl
    | false =>
      refine ⟨fw (ext.randomCrop sty sg (bw a none) [h, w]
        (if useSeed then some ((Value.pyStr f).data.map Char.toNat) else none)) none,
        ?_, ?_⟩
      · rw [cropKspaceCall, hk]
        show (match filenameSeed useSeed s with
          | Except.error e => Except.error e
          | Except.ok seed => Except.ok (s.set "kspace"
              (Value.arr (fw (ext.randomCrop sty sg (bw a none) [h, w] seed) none)))) = _
        rw [hfs]
      · rw [hf, hrc, hb, hsh]; rfl
  set s1 : Sample := s.set "kspace" (.arr K1) with hs1
  have hk1 : s1.get? "kspace" = some (.arr K1) := Sample.get?_set_self s _ _
  set P : NDArray :=
    (((ops.modulus K1).sumAxis0).ltScalar (((ops.modulus K1).sumAxis0).mean * eps)).unsqueeze0.unsqueezeLast
    with hP
  have e2 : computeZeroPaddingCall ops "kspace" "padding" eps s1 =
      .ok (s1.set "padding" (.arr P)) := by
    rw [computeZeroPaddingCall, hk1]
  set s2 : Sample := s1.set "padding" (.arr P) with hs2
  have hk2 : s2.get? "kspace" = some (.arr K1) := by
    rw [hs2, Sample.get?_set_ne s1 "padding" "kspace" (.arr P) (by decide), hk1]
  have hp2 : s2.get? "padding" = some (.arr P) := Sample.get?_set_self s1 _ _
  have e3 : applyZeroPaddingCall ops "kspace" "padding" s2 =
      .ok (s2.set "kspace" (.arr (ops.applyPadding K1 P))) := by
    rw [applyZeroPaddingCall, hk2]
    show (match s2.get? "padding" with
      | none => Except.error (PErr.keyError "padding")
      | some (Value.arr p) =>
        Except.ok (s2.set "kspace" (Value.arr (ops.applyPadding K1 p)))
      | some _ => Except.error (PErr.typeError "padding tensor expected")) = _
    rw [hp2]
  set K2 : NDArray := ops.applyPadding K1 P with hK2
  set s3 : Sample := s2.set "kspace" (.arr K2) with hs3
  have hk3 : s3.get? "kspace" = some (.arr K2) := Sample.get?_set_self s2 _ _
  have hfn3 : s3.get? "filename" = some f := by
    rw [hs3, Sample.get?_set_ne s2 "kspace" "filename" (.arr K2) (by decide),
      hs2, Sample.get?_set_ne s1 "padding" "filename" (.arr P) (by decide),
      hs1, Sample.get?_set_ne s "kspace" "filename" (.arr K1) (by decide), hfn]
  have hp3 : s3.get? "padding" = some (.arr P) := by
    rw [hs3, Sample.get?_set_ne s2 "kspace" "padding" (.arr K2) (by decide), hp2]
  have hK2sh : K2.shape.tail = [h, w, 2] := by
    rw [hK2, hap, hK1]; rfl
  have hcsm : csmShape (some [some h, some w]) s3 = .ok [h, w, 2] := rfl
  have hfs3 : filenameSeed useSeed s3 =
      .ok (if useSeed then some ((Value.pyStr f).data.map Char.toNat) else none) :=
    filenameSeed_ok useSeed s3 f hfn3
  have hksh3 : kspaceShapeTail s3 = .ok [h, w, 2] := by
    rw [kspaceShapeTail_arr s3 K2 hk3, hK2sh]
  have e4 : createSamplingMaskCall ops maskFunc (some [some h, some w])
      useSeed true s3 =
      .ok (Sample.set (s3.set "sampling_mask" (.arr (ops.applyPadding
          (maskFunc [h, w, 2]
            (if useSeed then some ((Value.pyStr f).data.map Char.toNat) else none)
            false) P)))
        "acs_mask" (.arr (maskFunc [h, w, 2]
          (if useSeed then some ((Value.pyStr f).data.map Char.toNat) else none)
          true))) := by
    have e4x := (createSamplingMask_spec ops maskFunc (some [some h, some w])
      useSeed true s3 [h, w, 2] [h, w, 2]
      (if useSeed then some ((Value.pyStr f).data.map Char.toNat) else none)
      hcsm hfs3 hksh3).2 P hp3
    rw [if_pos rfl] at e4x
    exact e4x
  refine ⟨Sample.set (s3.set "sampling_mask" (.arr (ops.applyPadding
      (maskFunc [h, w, 2]
        (if useSeed then some ((Value.pyStr f).data.map Char.toNat) else none)
        false) P)))
      "acs_mask" (.arr (maskFunc [h, w, 2]
        (if useSeed then some ((Value.pyStr f).data.map Char.toNat) else none)
        true)),
    (if useSeed then some ((Value.pyStr f).data.map Char.toNat) else none),
    P, ?_, hfs, ?_, ?_⟩
  · rw [composeRun_cons_ok _ _ _ _ e1, composeRun_cons_ok _ _ _ _ e2,
      composeRun_cons_ok _ _ _ _ e3, composeRun_cons_ok _ _ _ _ e4]
    rfl
  · rw [Sample.get?_set_ne _ "acs_mask" "sampling_mask" _ (by decide),
      Sample.get?_set_self]
  · rw [Sample.get?_set_self]

/-- C2 (amended): for every sample flowing through the canonical pipeline
slice built with a crop configured, the ACS mask is generated with
return_acs=true, the same filename-derived seed as the primary mask, and
the sample's current k-space shape at the time the stage runs — the cropped
shape (h, w, 2), which coincides with the primary mask shape, not the
pre-crop shape. -/
theorem c2_acs_uses_cropped_shape (ops : ExtOps) (maskFunc : MaskFunc)
    (ext : CropExt) (fw bw : NDArray → Option (List ℕ) → NDArray)
    (center useSeed : Bool) (sty : Option String) (sg : Option (List ℚ))
    (eps : ℚ) (h w c H W : ℕ) (s : Sample) (a : NDArray) (f : Value)
    (hb : ∀ x d, (bw x d).shape = x.shape)
    (hf : ∀ x d, (fw x d).shape = x.shape)
    (hcc : ∀ x sh, (ext.centerCrop x sh).shape = x.shape.headD 0 :: (sh ++ [2]))
    (hrc : ∀ ty sgm x sh sdl,
      (ext.randomCrop ty sgm x sh sdl).shape = x.shape.headD 0 :: (sh ++ [2]))
    (hap : ∀ x p2, (ops.applyPadding x p2).shape = x.shape)
    (hk : s.get? "kspace" = some (.arr a))
    (hsh : a.shape = [c, H, W, 2])
    (hfn : s.get? "filename" = some f) :
    ∃ s4 sd pad,
      composeRun
        [cropKspaceCall ext fw bw ⟨.size [h, w], center, sty, sg, useSeed⟩,
         computeZeroPaddingCall ops "kspace" "padding" eps,
         applyZeroPaddingCall ops "kspace" "padding",
         createSamplingMaskCall ops maskFunc (some [some h, some w]) useSeed true] s
        = .ok s4
      ∧ filenameSeed useSeed s = .ok sd
      ∧ s4.get? "sampling_mask" =
          some (.arr (ops.applyPadding (maskFunc [h, w, 2] sd false) pad))
      ∧ s4.get? "acs_mask" = some (.arr (maskFunc [h, w, 2] sd true)) :=
  cropPipeline_acs_shape ops maskFunc ext fw bw center useSeed sty sg eps h w c
    H W s a f hb hf hcc hrc hap hk hsh hfn

/-- C2 (counterexample): with a 4x4 k-space cropped to 2x2, the ACS-mask
generation call receives the cropped shape (2, 2, 2), not the pre-crop
shape (4, 4, 2) the claim asserts. -/
theorem c2_counterexample :
    ∃ s4, c2Run = .ok s4
      ∧ s4.get? "acs_mask" = some (.arr (c2MaskFunc [2, 2, 2] c2Seed true))
      ∧ s4.get? "acs_mask" ≠ some (.arr (c2MaskFunc [4, 4, 2] c2Seed true)) := by
  obtain ⟨s4, sd, pad, hrun, hsd, hsm, hacs⟩ :=
    cropPipeline_acs_shape cexOps c2MaskFunc cexCropExt cexOpDim cexOpDim
      true true (some "uniform") none 0 2 2 1 4 4 c2Sample
      ⟨[1, 4, 4, 2], List.replicate 32 1⟩ (.str "f")
      (fun x d => rfl) (fun x d => rfl) (fun x sh => rfl)
      (fun ty sgm x sh sdl => rfl) (fun x p2 => rfl) (by decide) (by decide)
      (by decide)
  have hseq : sd = c2Seed := by
    have h0 : filenameSeed true c2Sample = .ok c2Seed := rfl
    exact Except.ok.inj (hsd.symm.trans h0)
  refine ⟨s4, hrun, ?_, ?_⟩
  · rw [hacs, hseq]
  · rw [hacs, hseq]
    decide

/-- C2 (witness): the pipeline slice on a concrete 4x4 sample cropped to
2x2 generates both masks with the shape (2, 2, 2) and the filename seed. -/
theorem c2_witness :
    c2Sample.get? "kspace" = some (.arr ⟨[1, 4, 4, 2], List.replicate 32 1⟩)
    ∧ c2Sample.get? "filename" = some (.str "f")
    ∧ ∃ s4 sd pad,
        c2Run = .ok s4
        ∧ filenameSeed true c2Sample = .ok sd
        ∧ s4.get? "sampling_mask" =
            some (.arr (cexOps.applyPadding (c2MaskFunc [2, 2, 2] sd false) pad))
        ∧ s4.get? "acs_mask" = some (.arr (c2MaskFunc [2, 2, 2] sd true)) :=
  ⟨by decide, by decide,
   c2_acs_uses_cropped_shape cexOps c2MaskFunc cexCropExt cexOpDim cexOpDim
     true true (some "uniform") none 0 2 2 1 4 4 c2Sample
     ⟨[1, 4, 4, 2], List.replicate 32 1⟩ (.str "f")
     (fun x d => rfl) (fun x d => rfl) (fun x sh => rfl)
     (fun ty sgm x sh sdl => rfl) (fun x p2 => rfl) (by decide) (by decide)
     (by decide)⟩

/-! ### Claim C7 -/

/-- C7 (counterexample): two samples with identical filename and identical
k-space, one carrying a padding field, get different sampling masks from
the same seeded mask stage, refuting determinism from filename and shape
alone. -/
theorem c7_counterexample :
    c7S1.get? "filename" = c7S2.get? "filename"
    ∧ c7S1.get? "kspace" = c7S2.get? "kspace"
    ∧ createSamplingMaskCall cexOps c7MaskFunc none true false c7S1 =
        .ok (c7S1.set "sampling_mask" (.arr ⟨[2, 2, 2], List.replicate 8 0⟩))
    ∧ createSamplingMaskCall cexOps c7MaskFunc none true false c7S2 =
        .ok (c7S2.set "sampling_mask" (.arr ⟨[2, 2, 2], List.replicate 8 1⟩))
    ∧ (Value.arr ⟨[2, 2, 2], List.replicate 8 0⟩) ≠
        (Value.arr ⟨[2, 2, 2], List.replicate 8 1⟩) := by
  decide

/-- C7 (amended): with seeding enabled the seed passed to the mask callable
and the crop sampler is the tuple of character codes of the filename; the
sampling-mask stage is deterministic in the filename, the k-space shape,
and the padding field; the crop stage is deterministic in the filename, the
k-space value, and the crop-size source field. -/
theorem c7_seeded_determinism :
    (∀ (s : Sample) (f : String), s.get? "filename" = some (.str f) →
      filenameSeed true s = .ok (some (f.data.map Char.toNat)))
    ∧ (∀ (ops : ExtOps) (maskFunc : MaskFunc) (shape : Option (List (Option ℕ)))
        (returnAcs : Bool) (s1 s2 : Sample) (a1 a2 : NDArray) (fv : Value),
        s1.get? "filename" = some fv → s2.get? "filename" = some fv →
        s1.get? "kspace" = some (.arr a1) → s2.get? "kspace" = some (.arr a2) →
        a1.shape = a2.shape →
        s1.get? "padding" = s2.get? "padding" →
        (s1.get? "padding" = none ∨ ∃ pa, s1.get? "padding" = some (.arr pa)) →
        ∃ r1 r2,
          createSamplingMaskCall ops maskFunc shape true returnAcs s1 = .ok r1
          ∧ createSamplingMaskCall ops maskFunc shape true returnAcs s2 = .ok r2
          ∧ r1.get? "sampling_mask" = r2.get? "sampling_mask"
          ∧ (returnAcs = true → r1.get? "acs_mask" = r2.get? "acs_mask"))
    ∧ (∀ (ext : CropExt) (fw bw : NDArray → Option (List ℕ) → NDArray)
        (crop : CropSpec) (center : Bool) (sty : Option String)
        (sg : Option (List ℚ)) (s1 s2 : Sample) (a : NDArray) (fv : Value),
        s1.get? "kspace" = some (.arr a) → s2.get? "kspace" = some (.arr a) →
        s1.get? "filename" = some fv → s2.get? "filename" = some fv →
        (∀ ck, crop = .key ck →
          ∃ l, s1.get? ck = some (.intList l) ∧ s2.get? ck = some (.intList l)) →
        ∃ r1 r2,
          cropKspaceCall ext fw bw ⟨crop, center, sty, sg, true⟩ s1 = .ok r1
          ∧ cropKspaceCall ext fw bw ⟨crop, center, sty, sg, true⟩ s2 = .ok r2
          ∧ r1.get? "kspace" = r2.get? "kspace") := by
  refine ⟨fun s f hf => ?_, ?_, ?_⟩
  · rw [filenameSeed_ok true s (.str f) hf]; rfl
  · intro ops maskFunc shape returnAcs s1 s2 a1 a2 fv hfn1 hfn2 hk1 hk2 hsh
      hpadeq hpadok
    have hshp1 := csmShape_arr shape s1 a1 hk1
    have hshp2 := csmShape_arr shape s2 a2 hk2
    rw [← hsh] at hshp2
    have hksh1 := kspaceShapeTail_arr s1 a1 hk1
    have hksh2 := kspaceShapeTail_arr s2 a2 hk2
    rw [← hsh] at hksh2
    have hfs1 : filenameSeed true s1 =
        .ok (some ((Value.pyStr fv).data.map Char.toNat)) := by
      rw [filenameSeed_ok true s1 fv hfn1]; rfl
    have hfs2 : filenameSeed true s2 =
        .ok (some ((Value.pyStr fv).data.map Char.toNat)) := by
      rw [filenameSeed_ok true s2 fv hfn2]; rfl
    rcases hpadok with hnone1 | ⟨pa, hpa1⟩
    · have hnone2 : s2.get? "padding" = none := by rw [← hpadeq]; exact hnone1
      cases returnAcs with
      | true =>
        have h1 := (createSamplingMask_spec ops maskFunc shape true true s1
          _ _ _ hshp1 hfs1 hksh1).1 hnone1
        have h2 := (createSamplingMask_spec ops maskFunc shape true true s2
          _ _ _ hshp2 hfs2 hksh2).1 hnone2
        rw [if_pos rfl] at h1 h2
        refine ⟨_, _, h1, h2, ?_, fun _ => ?_⟩
        · rw [Sample.get?_set_ne _ "acs_mask" "sampling_mask" _ (by decide),
            Sample.get?_set_ne _ "acs_mask" "sampling_mask" _ (by decide),
            Sample.get?_set_self, Sample.get?_set_self]
        · rw [Sample.get?_set_self, Sample.get?_set_self]
      | false =>
        have h1 := (createSamplingMask_spec ops maskFunc shape true false s1
          _ _ _ hshp1 hfs1 hksh1).1 hnone1
        have h2 := (createSamplingMask_spec ops maskFunc shape true false s2
          _ _ _ hshp2 hfs2 hksh2).1 hnone2
        rw [if_neg Bool.false_ne_true] at h1 h2
        refine ⟨_, _, h1, h2, ?_, fun hc => absurd hc (by decide)⟩
        rw [Sample.get?_set_self, Sample.get?_set_self]
    · have hpa2 : s2.get? "padding" = some (.arr pa) := by
        rw [← hpadeq]; exact hpa1
      cases returnAcs with
      | true =>
        have h1 := (createSamplingMask_spec ops maskFunc shape true true s1
          _ _ _ hshp1 hfs1 hksh1).2 pa hpa1
        have h2 := (createSamplingMask_spec ops maskFunc shape true true s2
          _ _ _ hshp2 hfs2 hksh2).2 pa hpa2
        rw [if_pos rfl] at h1 h2
        refine ⟨_, _, h1, h2, ?_, fun _ => ?_⟩
        · rw [Sample.get?_set_ne _ "acs_mask" "sampling_mask" _ (by decide),
            Sample.get?_set_ne _ "acs_mask" "sampling_mask" _ (by decide),
            Sample.get?_set_self, Sample.get?_set_self]
        · rw [Sample.get?_set_self, Sample.get?_set_self]
      | false =>
        have h1 := (createSamplingMask_spec ops maskFunc shape true false s1
          _ _ _ hshp1 hfs1 hksh1).2 pa hpa1
        have h2 := (createSamplingMask_spec ops maskFunc shape true false s2
          _ _ _ hshp2 hfs2 hksh2).2 pa hpa2
        rw [if_neg Bool.false_ne_true] at h1 h2
        refine ⟨_, _, h1, h2, ?_, fun hc => absurd hc (by decide)⟩
        rw [Sample.get?_set_self, Sample.get?_set_self]
  · intro ext fw bw crop center sty sg s1 s2 a fv hk1 hk2 hfn1 hfn2 hcrop
    obtain ⟨cs, hcs1, hcs2⟩ : ∃ cs, cropShapeExc crop s1 = .ok cs ∧
        cropShapeExc crop s2 = .ok cs := by
      cases crop with
      | key ck =>
        obtain ⟨l, hl1, hl2⟩ := hcrop ck rfl
        exact ⟨l.take 2, by rw [cropShapeExc, hl1], by rw [cropShapeExc, hl2]⟩
      | size l => exact ⟨l, rfl, rfl⟩
    have hfs1 : filenameSeed true s1 =
        .ok (some ((Value.pyStr fv).data.map Char.toNat)) := by
      rw [filenameSeed_ok true s1 fv hfn1]; rfl
    have hfs2 : filenameSeed true s2 =
        .ok (some ((Value.pyStr fv).data.map Char.toNat)) := by
      rw [filenameSeed_ok true s2 fv hfn2]; rfl
    cases center with
    | true =>
      have e1 : cropKspaceCall ext fw bw ⟨crop, true, sty, sg, true⟩ s1 =
          .ok (s1.set "kspace" (.arr (fw (ext.centerCrop (bw a none) cs) none))) := by
        simp only [cropKspaceCall, hk1, hcs1]; rfl
      have e2 : cropKspaceCall ext fw bw ⟨crop, true, sty, sg, true⟩ s2 =
          .ok (s2.set "kspace" (.arr (fw (ext.centerCrop (bw a none) cs) none))) := by
        simp only [cropKspaceCall, hk2, hcs2]; rfl
      exact ⟨_, _, e1, e2, by rw [Sample.get?_set_self, Sample.get?_set_self]⟩
    | false =>
      have e1 : cropKspaceCall ext fw bw ⟨crop, false, sty, sg, true⟩ s1 =
          .ok (s1.set "kspace" (.arr (fw (ext.randomCrop sty sg (bw a none) cs
            (some ((Value.pyStr fv).data.map Char.toNat))) none))) := by
        simp only [cropKspaceCall, hk1, hcs1, hfs1]; rfl
      have e2 : cropKspaceCall ext fw bw ⟨crop, false, sty, sg, true⟩ s2 =
          .ok (s2.set "kspace" (.arr (fw (ext.randomCrop sty sg (bw a none) cs
            (some ((Value.pyStr fv).data.map Char.toNat))) none))) := by
        simp only [cropKspaceCall, hk2, hcs2, hfs2]; rfl
      exact ⟨_, _, e1, e2, by rw [Sample.get?_set_self, Sample.get?_set_self]⟩

/-- C7 (witness): the seed of a concrete sample, mask-stage determinism for
two samples agreeing on filename and shape but not data, and crop-stage
determinism for two samples agreeing on filename and k-space. -/
theorem c7_witness :
    filenameSeed true c7S2 = .ok (some ("a".data.map Char.toNat))
    ∧ (∃ r1 r2,
        createSamplingMaskCall cexOps c7MaskFunc none true true c7S2 = .ok r1
        ∧ createSamplingMaskCall cexOps c7MaskFunc none true true c7S3 = .ok r2
        ∧ r1.get? "sampling_mask" = r2.get? "sampling_mask"
        ∧ (true = true → r1.get? "acs_mask" = r2.get? "acs_mask"))
    ∧ (∃ r1 r2,
        cropKspaceCall cexCropExt cexOpDim cexOpDim
          ⟨.size [2, 2], true, some "uniform", none, true⟩ c7S2 = .ok r1
        ∧ cropKspaceCall cexCropExt cexOpDim cexOpDim
            ⟨.size [2, 2], true, some "uniform", none, true⟩ c7S4 = .ok r2
        ∧ r1.get? "kspace" = r2.get? "kspace") :=
  ⟨c7_seeded_determinism.1 c7S2 "a" (by decide),
   c7_seeded_determinism.2.1 cexOps c7MaskFunc none true c7S2 c7S3
     ⟨[1, 2, 2, 2], List.replicate 8 1⟩ ⟨[1, 2, 2, 2], List.replicate 8 5⟩
     (.str "a") (by decide) (by decide) (by decide) (by decide) (by decide)
     (by decide) (Or.inl (by decide)),
   c7_seeded_determinism.2.2 cexCropExt cexOpDim cexOpDim (.size [2, 2]) true
     (some "uniform") none c7S2 c7S4 ⟨[1, 2, 2, 2], List.replicate 8 1⟩
     (.str "a") (by decide) (by decide) (by decide) (by decide)
     (fun ck hck => by cases hck)⟩

/-- Reduction of `normalizeCall` when the scaling-factor key is present. -/
theorem normalizeCall_some (sfKey : String) (keys : List String) (s : Sample)
    (v : Value) (hv : s.get? sfKey = some v) :
    normalizeCall sfKey keys s =
      if v.truthy then
        Sample.set
          (s.map (fun kv => (kv.1, if kv.1 ∈ keys then divVal kv.2 v else kv.2)))
          "scaling_diff" (.scal 0)
      else s := by
  rw [normalizeCall, hv]

/-! ### Claim C4 -/

/-- C4: normalization never divides by zero — with the scaling-factor key
absent or its value falsy the sample is returned untouched (no scaling_diff
marker), and only with a present non-zero factor are exactly the
allow-listed fields divided by it and `scaling_diff` stamped to zero. -/
theorem c4_normalize_guard (sfKey : String) (keys : List String) (s : Sample) :
    (s.get? sfKey = none → normalizeCall sfKey keys s = s)
    ∧ (∀ v, s.get? sfKey = some v → v.truthy = false →
        normalizeCall sfKey keys s = s)
    ∧ (∀ q : ℚ, s.get? sfKey = some (.scal q) → q ≠ 0 →
        (normalizeCall sfKey keys s).get? "scaling_diff" = some (.scal 0)
        ∧ (∀ k w, k ≠ "scaling_diff" → k ∈ keys → s.get? k = some w →
            (normalizeCall sfKey keys s).get? k = some (divVal w (.scal q)))
        ∧ (∀ k, k ≠ "scaling_diff" → k ∉ keys →
            (normalizeCall sfKey keys s).get? k = s.get? k)) := by
  refine ⟨fun h => ?_, fun v hv ht => ?_, fun q hq hqne => ?_⟩
  · rw [normalizeCall, h]
  · rw [normalizeCall_some sfKey keys s v hv, if_neg (by simp [ht])]
  · have htr : Value.truthy (.scal q) = true := by
      simp [Value.truthy, hqne]
    rw [normalizeCall_some sfKey keys s _ hq, if_pos htr]
    refine ⟨Sample.get?_set_self _ _ _, fun k w hk hkin hw => ?_, fun k hk hkout => ?_⟩
    · rw [Sample.get?_set_ne _ _ _ _ (Ne.symm hk),
        Sample.get?_entryMap
          (fun key w2 => if key ∈ keys then divVal w2 (.scal q) else w2) s k,
        hw]
      simp [hkin]
    · rw [Sample.get?_set_ne _ _ _ _ (Ne.symm hk),
        Sample.get?_entryMap
          (fun key w2 => if key ∈ keys then divVal w2 (.scal q) else w2) s k]
      cases hsk : s.get? k <;> simp [hkout]

/-- C4 (witness): the guard and the division on concrete samples. -/
theorem c4_witness :
    normalizeCall "scaling_factor" normalizeDefaultKeys c4AbsentS = c4AbsentS
    ∧ normalizeCall "scaling_factor" normalizeDefaultKeys c4ZeroS = c4ZeroS
    ∧ (normalizeCall "scaling_factor" normalizeDefaultKeys c4S).get? "scaling_diff" =
        some (.scal 0)
    ∧ (normalizeCall "scaling_factor" normalizeDefaultKeys c4S).get? "masked_kspace" =
        some (divVal (.arr ⟨[2], [4, 6]⟩) (.scal 2))
    ∧ (normalizeCall "scaling_factor" normalizeDefaultKeys c4S).get? "other" =
        c4S.get? "other" :=
  ⟨(c4_normalize_guard "scaling_factor" normalizeDefaultKeys c4AbsentS).1 (by decide),
   (c4_normalize_guard "scaling_factor" normalizeDefaultKeys c4ZeroS).2.1
     (.scal 0) (by decide) (by decide),
   ((c4_normalize_guard "scaling_factor" normalizeDefaultKeys c4S).2.2 2
     (by decide) (by decide)).1,
   ((c4_normalize_guard "scaling_factor" normalizeDefaultKeys c4S).2.2 2
     (by decide) (by decide)).2.1 "masked_kspace" (.arr ⟨[2], [4, 6]⟩)
     (by decide) (by decide) (by decide),
   ((c4_normalize_guard "scaling_factor" normalizeDefaultKeys c4S).2.2 2
     (by decide) (by decide)).2.2 "other" (by decide) (by decide)⟩

/-! ### Claim C8 -/

/-- Reduction of `padCoilDimensionCall` for a non-zero target and a tensor
value at the key. -/
theorem padCoil_some_arr (t : ℕ) (key : String) (s : Sample) (a : NDArray)
    (ht : t ≠ 0) (hs : s.get? key = some (.arr a)) :
    padCoilDimensionCall (some t) key s =
      (if t < a.shape.headD 0 then
        (match s.get? "filename" with
         | none => .error (.keyError "filename")
         | some fv => .error (.valueError
             ("Tried to pad to fewer coils than present for " ++ fv.pyStr)))
       else if a.shape.headD 0 = t then .ok s
       else .ok (s.set key (.arr
         ((⟨(t - a.shape.headD 0) :: a.shape.tail,
            List.replicate (((t - a.shape.headD 0) :: a.shape.tail).prod) 0⟩ :
            NDArray).catAxis0 a)))) := by
  rw [padCoilDimensionCall]
  show (if t = 0 then _ else _) = _
  rw [if_neg ht, hs]

/-- C8 (counterexample): with a configured target coil count of 0 and a
one-coil tensor present, the stage silently returns the sample unchanged
instead of failing, although the current coil count exceeds the target. -/
theorem c8_counterexample :
    padCoilDimensionCall (some 0) "masked_kspace" c8S = .ok c8S
    ∧ c8S.get? "masked_kspace" = some (.arr c8A)
    ∧ 0 < c8A.shape.headD 0 := by
  decide

/-- C8 (amended): the stage is a no-op when the target is unset or zero, or
when the coil counts agree; it fails deterministically when the data has
more coils than a positive target; and when the data has fewer coils the
result has the target count with the leading slots entirely zero and the
trailing slots equal to the original data. -/
theorem c8_padCoilDimension (t : ℕ) (key : String) (s : Sample) (a : NDArray)
    (f : String) (hs : s.get? key = some (.arr a)) :
    (∀ s2 : Sample, padCoilDimensionCall none key s2 = .ok s2)
    ∧ (∀ s2 : Sample, padCoilDimensionCall (some 0) key s2 = .ok s2)
    ∧ (0 < t → a.shape.headD 0 = t → padCoilDimensionCall (some t) key s = .ok s)
    ∧ (0 < t → t < a.shape.headD 0 → s.get? "filename" = some (.str f) →
        padCoilDimensionCall (some t) key s =
          .error (.valueError ("Tried to pad to fewer coils than present for " ++ f)))
    ∧ (0 < t → a.shape.headD 0 < t →
        padCoilDimensionCall (some t) key s =
          .ok (s.set key (.arr ⟨t :: a.shape.tail,
            List.replicate ((t - a.shape.headD 0) * a.shape.tail.prod) 0 ++ a.data⟩))) := by
  refine ⟨fun s2 => rfl, fun s2 => rfl, fun h0 heq => ?_, fun h0 hlt hfn => ?_,
    fun h0 hclt => ?_⟩
  · rw [padCoil_some_arr t key s a h0.ne' hs,
      if_neg (by rw [heq]; exact lt_irrefl t), if_pos heq]
  · rw [padCoil_some_arr t key s a h0.ne' hs, if_pos hlt, hfn]; rfl
  · rw [padCoil_some_arr t key s a h0.ne' hs, if_neg (not_lt.mpr hclt.le),
      if_neg hclt.ne]
    simp only [NDArray.catAxis0, List.headD_cons, List.prod_cons]
    rw [Nat.sub_add_cancel hclt.le]

/-- C8 (witness): unset target and equal counts are no-ops, a positive
target below the coil count fails, and padding 1 coil to 3 prepends two
all-zero coils while keeping the data. -/
theorem c8_witness :
    padCoilDimensionCall none "masked_kspace" c8S = .ok c8S
    ∧ padCoilDimensionCall (some 1) "masked_kspace" c8S = .ok c8S
    ∧ padCoilDimensionCall (some 1) "masked_kspace" c8S2 =
        .error (.valueError "Tried to pad to fewer coils than present for f")
    ∧ padCoilDimensionCall (some 3) "masked_kspace" c8S =
        .ok (c8S.set "masked_kspace" (.arr ⟨3 :: c8A.shape.tail,
          List.replicate ((3 - c8A.shape.headD 0) * c8A.shape.tail.prod) 0 ++ c8A.data⟩)) :=
  ⟨(c8_padCoilDimension 3 "masked_kspace" c8S c8A "f" (by decide)).1 c8S,
   (c8_padCoilDimension 1 "masked_kspace" c8S c8A "f" (by decide)).2.2.1
     (by decide) (by decide),
   (c8_padCoilDimension 1 "masked_kspace" c8S2 c8B "f" (by decide)).2.2.2.1
     (by decide) (by decide) (by decide),
   (c8_padCoilDimension 3 "masked_kspace" c8S c8A "f" (by decide)).2.2.2.2
     (by decide) (by decide)⟩

/-! ### Claim C3 -/

/-- Reduction of the percentile branch of `ComputeScalingFactor.__call__`:
the stored factor is the `int((1-p)*N)+1`-th largest magnitude. -/
theorem scalingFactor_percentile (ops : ExtOps) (key sfKey : String) (p : ℚ)
    (s : Sample) (a : NDArray) (hk1 : key ≠ "scaling_factor") (hk0 : key ≠ "")
    (hv : s.get? key = some (.arr a)) (hp0 : p ≠ 0) :
    computeScalingFactor ops (some key) (some p) sfKey s =
      .ok (s.set sfKey (.scal (rankFromLargest (ops.modulus a).data
        ((pyInt ((1 - p) * ((ops.modulus a).data.length : ℚ))).toNat + 1)))) := by
  have hc1 : ¬((some key : Option String) = some "scaling_factor") := by
    simp [hk1]
  have hc2 : ¬((!optStrTruthy (some key)) = true) := by
    simp [optStrTruthy, hk0]
  rw [computeScalingFactor, if_neg hc1, if_neg hc2]
  simp only [Option.getD_some]
  rw [hv]
  show (match
      (if optRatTruthy (some p) = true then
        Except.ok (Value.scal ((-1 : ℚ) *
          kthvalue ((ops.modulus a).data.map (fun x => (-1 : ℚ) * x))
            ((pyInt ((1 - p) *
              (((ops.modulus a).data.map (fun x => (-1 : ℚ) * x)).length : ℚ))).toNat + 1)))
       else Except.ok (Value.scal (listMaxD (ops.modulus a).data))
        : Except PErr Value) with
    | .error e => Except.error e
    | .ok sf => Except.ok (s.set sfKey sf)) = _
  rw [if_pos (show optRatTruthy (some p) = true by simp [optRatTruthy, hp0])]
  rw [List.length_map, neg_kthvalue_neg]

/-- Reduction of the maximum branch of `ComputeScalingFactor.__call__`. -/
theorem scalingFactor_max (ops : ExtOps) (key sfKey : String)
    (s : Sample) (a : NDArray) (hk1 : key ≠ "scaling_factor") (hk0 : key ≠ "")
    (hv : s.get? key = some (.arr a)) :
    computeScalingFactor ops (some key) none sfKey s =
      .ok (s.set sfKey (.scal (listMaxD (ops.modulus a).data))) := by
  have hc1 : ¬((some key : Option String) = some "scaling_factor") := by
    simp [hk1]
  have hc2 : ¬((!optStrTruthy (some key)) = true) := by
    simp [optStrTruthy, hk0]
  rw [computeScalingFactor, if_neg hc1, if_neg hc2]
  simp only [Option.getD_some]
  rw [hv]
  rfl

/-- C3 (counterexample): on magnitudes 1, 2, 3, 4 with percentile 3/4 the
code stores the element of rank int((1-p)*N)+1 = 2 counted from the
largest, namely 3, while the claim's formula — the element of rank
ceil((1-p)*N) = 1 counted from the smallest — yields 1. -/
theorem c3_counterexample :
    computeScalingFactor cexOps (some "masked_kspace") (some (3 / 4))
      "scaling_factor" c3Sample = .ok (c3Sample.set "scaling_factor" (.scal 3))
    ∧ (cexOps.modulus c3Arr).data = [1, 2, 3, 4]
    ∧ specClaimedScalingFactor [1, 2, 3, 4] (3 / 4) = 1
    ∧ (3 : ℚ) ≠ 1 := by
  have hm : (cexOps.modulus c3Arr).data = [1, 2, 3, 4] := by
    norm_num [cexOps, cexModulus, c3Arr, complexPairs]
  refine ⟨?_, hm, ?_, by norm_num⟩
  · rw [scalingFactor_percentile cexOps "masked_kspace" "scaling_factor" (3 / 4)
      c3Sample c3Arr (by decide) (by decide) (by decide) (by norm_num), hm]
    have hlen : ((([1, 2, 3, 4] : List ℚ).length : ℕ) : ℚ) = 4 := by norm_num
    rw [hlen]
    have harith : ((1 : ℚ) - 3 / 4) * 4 = 1 := by norm_num
    rw [harith]
    have hpy : (pyInt 1).toNat + 1 = 2 := by norm_num [pyInt]
    rw [hpy]
    have hr : rankFromLargest [1, 2, 3, 4] 2 = 3 := by
      norm_num [rankFromLargest, List.insertionSort, List.orderedInsert, List.getD]
    rw [hr]
  · have harith : ((1 : ℚ) - 3 / 4) * (([1, 2, 3, 4] : List ℚ).length : ℚ) = 1 := by
      norm_num
    rw [specClaimedScalingFactor, harith]
    norm_num [List.insertionSort, List.orderedInsert, List.getD]

/-- C3 (amended): with a percentile p configured (non-zero) and the source
field holding a tensor, the computed factor is the element of rank
int((1-p)*N)+1 counted from the largest magnitude values; with no
percentile the factor is the maximum magnitude; with no source key the
factor is 1.0. -/
theorem c3_scaling_factor (ops : ExtOps) (key sfKey : String) (p : ℚ)
    (s : Sample) (a : NDArray) (hk1 : key ≠ "scaling_factor") (hk0 : key ≠ "")
    (hv : s.get? key = some (.arr a)) (hp0 : p ≠ 0) :
    computeScalingFactor ops (some key) (some p) sfKey s =
      .ok (s.set sfKey (.scal (rankFromLargest (ops.modulus a).data
        ((pyInt ((1 - p) * ((ops.modulus a).data.length : ℚ))).toNat + 1))))
    ∧ computeScalingFactor ops (some key) none sfKey s =
        .ok (s.set sfKey (.scal (listMaxD (ops.modulus a).data)))
    ∧ ∀ (pp : Option ℚ) (s2 : Sample),
        computeScalingFactor ops none pp sfKey s2 =
          .ok (s2.set sfKey (.scal 1)) :=
  ⟨scalingFactor_percentile ops key sfKey p s a hk1 hk0 hv hp0,
   scalingFactor_max ops key sfKey s a hk1 hk0 hv,
   fun _ _ => rfl⟩

/-- C3 (witness): the amended rank formula, the maximum, and the 1.0
default evaluated on a concrete sample with percentile 1/2. -/
theorem c3_witness :
    ("masked_kspace" : String) ≠ "scaling_factor"
    ∧ ("masked_kspace" : String) ≠ ""
    ∧ pHalf ≠ 0
    ∧ computeScalingFactor cexOps (some "masked_kspace") (some pHalf)
        "scaling_factor" c3Sample =
        .ok (c3Sample.set "scaling_factor" (.scal (rankFromLargest
          (cexOps.modulus c3Arr).data
          ((pyInt ((1 - pHalf) * ((cexOps.modulus c3Arr).data.length : ℚ))).toNat + 1))))
    ∧ computeScalingFactor cexOps (some "masked_kspace") none "scaling_factor"
        c3Sample = .ok (c3Sample.set "scaling_factor"
          (.scal (listMaxD (cexOps.modulus c3Arr).data)))
    ∧ computeScalingFactor cexOps none none "scaling_factor" c3Sample =
        .ok (c3Sample.set "scaling_factor" (.scal 1)) :=
  ⟨by decide, by decide, by decide,
   (c3_scaling_factor cexOps "masked_kspace" "scaling_factor" pHalf c3Sample
     c3Arr (by decide) (by decide) (by decide) (by decide)).1,
   (c3_scaling_factor cexOps "masked_kspace" "scaling_factor" pHalf c3Sample
     c3Arr (by decide) (by decide) (by decide) (by decide)).2.1,
   (c3_scaling_factor cexOps "masked_kspace" "scaling_factor" pHalf c3Sample
     c3Arr (by decide) (by decide) (by decide) (by decide)).2.2 none c3Sample⟩

/-- Reduction of `computeImageCall` on a sample holding a k-space tensor. -/
theorem computeImageCall_arr (ops : ExtOps)
    (bw : NDArray → Option (List ℕ) → NDArray) (kk tk ty : String)
    (s : Sample) (a : NDArray) (hk : s.get? kk = some (.arr a)) :
    computeImageCall ops bw kk tk ty s =
      (match
        (if ty = "complex" ∨ ty = "complex_mod" then
          Except.ok (bw a (some [1, 2])).sumAxis0
         else if ty = "rss" then Except.ok (ops.rss (bw a (some [1, 2])) 0)
         else
          match s.get? "sensitivity_map" with
          | none => Except.error (.itemNotFound "sensitivity map")
          | some (.arr sm) =>
            Except.ok ((ops.complexMul (ops.conjugate sm) (bw a (some [1, 2]))).sumAxis0)
          | some _ => Except.error (.typeError "sensitivity map tensor expected")
          : Except PErr NDArray) with
       | .error e => .error e
       | .ok t1 =>
         .ok (s.set tk
           (.arr (if ty = "complex_mod" ∨ ty = "sense_mod" then ops.modulus t1 else t1)))) := by
  rw [computeImageCall, hk]

/-! ### Claim C5 -/

/-- C5: for a sample containing the configured k-space field, the
image-computation stage back-projects the k-space via the backward operator
and writes to the target key: the coil-axis sum for `complex`, its modulus
for `complex_mod`, the coil-axis root-sum-of-squares for `rss`, the
coil-axis sum of conjugated sensitivity map complex-multiplied with the
per-coil image for `sense`, and its modulus for `sense_mod`. -/
theorem c5_computeImage_types (ops : ExtOps)
    (bw : NDArray → Option (List ℕ) → NDArray) (kk tk : String) (s : Sample)
    (a : NDArray) (hk : s.get? kk = some (.arr a)) :
    computeImageCall ops bw kk tk "complex" s =
      .ok (s.set tk (.arr (bw a (some [1, 2])).sumAxis0))
    ∧ computeImageCall ops bw kk tk "complex_mod" s =
        .ok (s.set tk (.arr (ops.modulus (bw a (some [1, 2])).sumAxis0)))
    ∧ computeImageCall ops bw kk tk "rss" s =
        .ok (s.set tk (.arr (ops.rss (bw a (some [1, 2])) 0)))
    ∧ ∀ m, s.get? "sensitivity_map" = some (.arr m) →
        computeImageCall ops bw kk tk "sense" s =
          .ok (s.set tk
            (.arr ((ops.complexMul (ops.conjugate m) (bw a (some [1, 2]))).sumAxis0)))
        ∧ computeImageCall ops bw kk tk "sense_mod" s =
            .ok (s.set tk
              (.arr (ops.modulus
                ((ops.complexMul (ops.conjugate m) (bw a (some [1, 2]))).sumAxis0)))) := by
  refine ⟨?_, ?_, ?_, fun m hm => ⟨?_, ?_⟩⟩
  · rw [computeImageCall_arr ops bw kk tk "complex" s a hk]; rfl
  · rw [computeImageCall_arr ops bw kk tk "complex_mod" s a hk]; rfl
  · rw [computeImageCall_arr ops bw kk tk "rss" s a hk]; rfl
  · rw [computeImageCall_arr ops bw kk tk "sense" s a hk, hm]; rfl
  · rw [computeImageCall_arr ops bw kk tk "sense_mod" s a hk, hm]; rfl

/-- C5 (witness): the rss and sense reconstructions on a concrete sample. -/
theorem c5_witness :
    c5S.get? "kspace" = some (.arr c5K)
    ∧ computeImageCall cexOps cexOpDim "kspace" "target" "rss" c5S =
        .ok (c5S.set "target" (.arr (cexOps.rss (cexOpDim c5K (some [1, 2])) 0)))
    ∧ computeImageCall cexOps cexOpDim "kspace" "target" "sense" c5S =
        .ok (c5S.set "target"
          (.arr ((cexOps.complexMul (cexOps.conjugate c5M)
            (cexOpDim c5K (some [1, 2]))).sumAxis0))) :=
  ⟨by decide,
   (c5_computeImage_types cexOps cexOpDim "kspace" "target" c5S c5K (by decide)).2.2.1,
   ((c5_computeImage_types cexOps cexOpDim "kspace" "target" c5S c5K
      (by decide)).2.2.2 c5M (by decide)).1⟩

/-! ### Claim C6 -/

/-- C6: with reconstruction type sense or sense_mod and the k-space field
present, a sample lacking the sensitivity_map key makes the stage fail with
the missing-dependency error, and a sample with the sensitivity map present
never produces that error. -/
theorem c6_sense_requires_map (ops : ExtOps)
    (bw : NDArray → Option (List ℕ) → NDArray) (kk tk ty : String)
    (s : Sample) (a : NDArray) (hty : ty = "sense" ∨ ty = "sense_mod")
    (hk : s.get? kk = some (.arr a)) :
    (s.get? "sensitivity_map" = none →
      computeImageCall ops bw kk tk ty s = .error (.itemNotFound "sensitivity map"))
    ∧ ∀ v, s.get? "sensitivity_map" = some v →
        computeImageCall ops bw kk tk ty s ≠ .error (.itemNotFound "sensitivity map") := by
  rcases hty with h | h <;> subst h <;>
    refine ⟨fun hsm => ?_, fun v hsm => ?_⟩
  · rw [computeImageCall_arr ops bw kk tk "sense" s a hk, hsm]; rfl
  · rw [computeImageCall_arr ops bw kk tk "sense" s a hk, hsm]
    cases v with
    | arr m => exact fun hc => Except.noConfusion hc
    | carr m => intro hc; injection hc with h2; exact PErr.noConfusion h2
    | scal q => intro hc; injection hc with h2; exact PErr.noConfusion h2
    | str st => intro hc; injection hc with h2; exact PErr.noConfusion h2
    | intList l => intro hc; injection hc with h2; exact PErr.noConfusion h2
  · rw [computeImageCall_arr ops bw kk tk "sense_mod" s a hk, hsm]; rfl
  · rw [computeImageCall_arr ops bw kk tk "sense_mod" s a hk, hsm]
    cases v with
    | arr m => exact fun hc => Except.noConfusion hc
    | carr m => intro hc; injection hc with h2; exact PErr.noConfusion h2
    | scal q => intro hc; injection hc with h2; exact PErr.noConfusion h2
    | str st => intro hc; injection hc with h2; exact PErr.noConfusion h2
    | intList l => intro hc; injection hc with h2; exact PErr.noConfusion h2

/-- C6 (witness): a concrete sample without the sensitivity map aborts with
the missing-dependency error; with the map present no such error occurs. -/
theorem c6_witness :
    computeImageCall cexOps cexOpDim "kspace" "target" "sense" c6NoMapS =
      .error (.itemNotFound "sensitivity map")
    ∧ computeImageCall cexOps cexOpDim "kspace" "target" "sense" c5S ≠
        .error (.itemNotFound "sensitivity map") :=
  ⟨(c6_sense_requires_map cexOps cexOpDim "kspace" "target" "sense" c6NoMapS c5K
      (Or.inl rfl) (by decide)).1 (by decide),
   (c6_sense_requires_map cexOps cexOpDim "kspace" "target" "sense" c5S c5K
      (Or.inl rfl) (by decide)).2 (.arr c5M) (by decide)⟩

/-! ### Claim C10 -/

/-- C10: the image-computation stage does not validate its reconstruction
type: construction always succeeds, and for any type string that is none of
the five known types the call behaves exactly like the SENSE combination
(including the missing-dependency error when the sensitivity map is
absent, and no final modulus). -/
theorem c10_unknown_type_is_sense (kk tk ty : String)
    (h : ty ∉ ["complex", "complex_mod", "rss", "sense", "sense_mod"]) :
    computeImageInit kk tk ty = .ok (kk, tk, ty)
    ∧ ∀ (ops : ExtOps) (bw : NDArray → Option (List ℕ) → NDArray) (s : Sample),
        computeImageCall ops bw kk tk ty s = computeImageCall ops bw kk tk "sense" s := by
  simp only [List.mem_cons, List.not_mem_nil, or_false, not_or] at h
  obtain ⟨h1, h2, h3, h4, h5⟩ := h
  refine ⟨rfl, fun ops bw s => ?_⟩
  rw [computeImageCall, computeImageCall]
  cases hk : s.get? kk with
  | none => rfl
  | some v =>
    cases v with
    | arr a =>
      simp only
        [if_neg (fun hor : ty = "complex" ∨ ty = "complex_mod" => Or.elim hor h1 h2),
         if_neg h3,
         if_neg (fun hor : ty = "complex_mod" ∨ ty = "sense_mod" => Or.elim hor h2 h5)]
      rfl
    | carr a => rfl
    | scal q => rfl
    | str st => rfl
    | intList l => rfl

/-- C10 (witness): the unknown type string "foo" constructs successfully
and computes the SENSE combination. -/
theorem c10_witness :
    ("foo" ∉ ["complex", "complex_mod", "rss", "sense", "sense_mod"])
    ∧ computeImageInit "kspace" "target" "foo" = .ok ("kspace", "target", "foo")
    ∧ computeImageCall cexOps cexOpDim "kspace" "target" "foo" c5S =
        computeImageCall cexOps cexOpDim "kspace" "target" "sense" c5S :=
  ⟨by decide,
   (c10_unknown_type_is_sense "kspace" "target" "foo" (by decide)).1,
   (c10_unknown_type_is_sense "kspace" "target" "foo" (by decide)).2 cexOps cexOpDim c5S⟩

end DirectMri
